import Mathlib

/-!
The configuration loader of lightdm-mini-greeter (`src/config.c`)

A shallow embedding of `initialize_config` and of its two helpers
`parse_greeter_color_key` and `parse_greeter_hotkey_keyval`.

* C strings are Lean `String`s: `g_key_file_get_string` only hands out valid
  UTF-8 without an embedded NUL, so `strcmp (a, b) == 0` is `a = b`.
* GLib's key file and GDK are external libraries: the answers of the key file
  are the fields of `GKeyFile`, the two GDK functions are the fields of `Gdk`.
* `g_message` and `g_critical` append a line to a log; `g_error` appends a line
  and aborts the process, after which nothing is returned.
* `malloc` is taken to succeed.
-/

namespace MiniGreeter

/-! ## Diagnostics and the outcome of a run -/

/-- The GLib log levels used by `config.c`. -/
inductive LogLevel where
  | message
  | critical
  | error
deriving DecidableEq, Repr

/-- One line written through `g_message`, `g_critical` or `g_error`. -/
structure Diagnostic where
  level : LogLevel
  text : String
deriving DecidableEq, Repr

/-- What a piece of the loader has done when control leaves it: the lines it
logged, and the value it returned, `none` when `g_error` aborted the process. -/
structure Outcome (α : Type) where
  log : List Diagnostic
  value : Option α

namespace Outcome

/-- Return `a`, logging nothing. -/
def ret {α : Type} (a : α) : Outcome α := ⟨[], some a⟩

/-- Run `x`, then `f` on its value; an abort in `x` skips `f`. -/
def andThen {α β : Type} (x : Outcome α) (f : α → Outcome β) : Outcome β :=
  match x.value with
  | none => ⟨x.log, none⟩
  | some a => ⟨x.log ++ (f a).log, (f a).value⟩

instance : Monad Outcome where
  pure := ret
  bind := andThen

end Outcome

/-- The call `g_message (text)`: log and go on. -/
def g_message (text : String) : Outcome Unit :=
  ⟨[⟨LogLevel.message, text⟩], some ()⟩

/-- The call `g_critical (text)`: log and go on. -/
def g_critical (text : String) : Outcome Unit :=
  ⟨[⟨LogLevel.critical, text⟩], some ()⟩

/-- The call `g_error (text)`: log and abort the process. -/
def g_error {α : Type} (text : String) : Outcome α :=
  ⟨[⟨LogLevel.error, text⟩], none⟩

/-! ## The external libraries -/

/-- A loaded GLib key file, seen through the three typed getters the loader
calls. `none` stands for a call that sets its `GError` (key or group missing,
or a value that cannot be read as the type asked for). -/
structure GKeyFile where
  strings : String → String → Option String
  booleans : String → String → Option Bool
  integers : String → String → Option Int

/-- The call `g_key_file_get_string (keyfile, group, key, &err)`: `none` is the
`NULL` returned together with an error. -/
def g_key_file_get_string (keyfile : GKeyFile) (group key : String) : Option String :=
  keyfile.strings group key

/-- The call `g_key_file_get_boolean (keyfile, group, key, &err)`: the returned
`gboolean` and whether `err` was set. GLib returns `FALSE` with an error. -/
def g_key_file_get_boolean (keyfile : GKeyFile) (group key : String) : Bool × Bool :=
  match keyfile.booleans group key with
  | some b => (b, false)
  | none => (false, true)

/-- The call `g_key_file_get_integer (keyfile, group, key, &err)`: the returned
`gint` and whether `err` was set. GLib returns `0` with an error. -/
def g_key_file_get_integer (keyfile : GKeyFile) (group key : String) : Int × Bool :=
  match keyfile.integers group key with
  | some n => (n, false)
  | none => (0, true)

/-- The part of GDK and of the C implementation the loader depends on, for a
type `RGBA` of colour values (`GdkRGBA`). -/
structure Gdk (RGBA : Type) where
  /-- The RGBA value `gdk_rgba_parse` stores, `none` when it returns `FALSE`. -/
  gdk_rgba_parse : String → Option RGBA
  /-- The key value of a `guint` taken as a Unicode code point. -/
  gdk_unicode_to_keyval : Nat → Nat
  /-- Whether plain `char` (GLib's `gchar`) is a signed type. -/
  char_is_signed : Bool

/-- The modifier mask `GDK_CONTROL_MASK` (`1 << 2`). -/
def GDK_CONTROL_MASK : Nat := 4

/-- The modifier mask `GDK_MOD1_MASK` (`1 << 3`). -/
def GDK_MOD1_MASK : Nat := 8

/-- The modifier mask `GDK_SUPER_MASK` (`1 << 26`). -/
def GDK_SUPER_MASK : Nat := 67108864

/-! ## Machine integers and bytes -/

/-- Conversion of a C integer value to the 32-bit `guint`. -/
def to_guint (x : Int) : Nat := (x % 4294967296).toNat

/-- A `gint` result reduced to the 32-bit two's-complement range. -/
def wrap_gint (x : Int) : Int := (x + 2147483648) % 4294967296 - 2147483648

/-- The first byte of the UTF-8 encoding of the code point `c`. -/
def utf8_first_byte (c : Nat) : Nat :=
  if c < 128 then c
  else if c < 2048 then 192 + c / 64
  else if c < 65536 then 224 + c / 4096
  else 240 + c / 262144

/-- The byte `s[0]` of the C string `s`: the terminating NUL when `s` is empty. -/
def first_byte (s : String) : Nat :=
  match s.toList with
  | [] => 0
  | c :: _ => utf8_first_byte c.toNat

/-- The value of a `char` object holding the byte `b`. -/
def char_value (signed : Bool) (b : Nat) : Int :=
  if signed && decide (128 ≤ b) then (b : Int) - 256 else (b : Int)

/-- The test `strstr (s, "#") != NULL`. -/
def has_hash (s : String) : Bool := s.toList.contains (Char.ofNat 35)

/-- Modelled from the spec: `remove_char` of `utils.c`, which is not among the
sources; the spec says the quote characters are stripped from the string, so
every occurrence of `to_remove` goes and the other characters stay in order. -/
def remove_char (s : String) (to_remove : Char) : String :=
  String.mk (s.toList.filter (fun c => c != to_remove))

/-! ## The configuration record -/

/-- The `Config` record of `config.h` (not among the sources), with the fields
`initialize_config` assigns. A colour is `none` when `gdk_rgba_parse` failed and the freshly
allocated `GdkRGBA` was left unwritten. -/
structure Config (RGBA : Type) where
  login_user : String
  show_password_label : Bool
  password_label_text : String
  show_input_cursor : Bool
  suspend_key : Nat
  hibernate_key : Nat
  restart_key : Nat
  shutdown_key : Nat
  mod_bit : Nat
  font : String
  font_size : String
  text_color : Option RGBA
  error_color : Option RGBA
  background_image : String
  background_color : Option RGBA
  window_color : Option RGBA
  border_color : Option RGBA
  password_color : Option RGBA
  password_background_color : Option RGBA
  border_width : String
  layout_spacing : Nat

/-! ## The loader -/

/-- The string `parse_greeter_color_key` holds after reading the key: the value
in the file, or `fallback` when the read set an error (lines 166-171). -/
def read_color_string (keyfile : GKeyFile) (key_name fallback : String) : String :=
  match g_key_file_get_string keyfile "greeter-theme" key_name with
  | some v => v
  | none => fallback

/-- The quote removal of `parse_greeter_color_key` (lines 172-176): a string
with a `#` in it loses its double quotes, then its single quotes. -/
def strip_color_quotes (color_string : String) : String :=
  if has_hash color_string then
    remove_char (remove_char color_string (Char.ofNat 34)) (Char.ofNat 39)
  else color_string

/-- Parse a greeter-colors group key into a newly-allocated GdkRGBA value. -/
def parse_greeter_color_key {RGBA : Type} (gdk : Gdk RGBA) (keyfile : GKeyFile)
    (key_name fallback : String) : Outcome (Option RGBA) := do
  let color_string := strip_color_quotes (read_color_string keyfile key_name fallback)
  let color := gdk.gdk_rgba_parse color_string
  if color.isNone then
    g_critical ("Could not parse the '" ++ key_name ++ "' setting: " ++ color_string)
  return color

/-- The string `parse_greeter_hotkey_keyval` holds after reading the key: the
value in the file, or `fallback` when the read set an error (lines 193-198). -/
def read_hotkey_string (keyfile : GKeyFile) (key_name fallback : String) : String :=
  match g_key_file_get_string keyfile "greeter-hotkeys" key_name with
  | some v => v
  | none => fallback

/-- The argument `(guint) key[0]` handed to `gdk_unicode_to_keyval` (line 204). -/
def hotkey_argument (signed : Bool) (key : String) : Nat :=
  to_guint (char_value signed (first_byte key))

/-- Parse a greeter-hotkeys key into the GDK keyval of its first character. -/
def parse_greeter_hotkey_keyval {RGBA : Type} (gdk : Gdk RGBA) (keyfile : GKeyFile)
    (key_name fallback : String) : Outcome Nat := do
  let key := read_hotkey_string keyfile key_name fallback
  if key = "" then
    g_error ("Configuration contains empty key for '" ++ key_name ++ "'\n")
  return gdk.gdk_unicode_to_keyval (hotkey_argument gdk.char_is_signed key)

/-- A string key of `initialize_config` with its literal default: the value
read, replaced by `fallback` when the read set an error. -/
def string_or (value : Option String) (fallback : String) : String :=
  match value with
  | some v => v
  | none => fallback

/-- A boolean key of `initialize_config`: the value read, replaced by `TRUE`
when the read set an error. -/
def boolean_or_true (read : Bool × Bool) : Bool :=
  if read.2 then true else read.1

/-- The `background_image` field (lines 100-105): the sentinel of two
double-quote characters when the read set an error or gave the empty string. -/
def background_image_of (value : Option String) : String :=
  match value with
  | none => "\"\""
  | some v => if v = "" then "\"\"" else v

/-- The `layout_spacing` field (lines 123-133), from the `gint` returned for
`layout-space` and whether the read set an error. The field is first given 15
on an error, and then assigned from the local `layout_spacing` in both branches
of the sign test. The product `-1 * layout_spacing` is a `gint`, taken modulo
2^32 where it overflows. -/
def layout_spacing_of (read : Int × Bool) : Nat := Id.run do
  let layout_spacing := read.1
  let mut field : Nat := 0
  if read.2 then
    field := to_guint 15
  if layout_spacing < 0 then
    field := to_guint (wrap_gint (-1 * layout_spacing))
  else
    field := to_guint layout_spacing
  return field

/-- The modifier mask chosen from the `mod-key` string (lines 73-81). -/
def mod_bit_of (mod_key : String) : Outcome Nat :=
  if mod_key = "control" then pure GDK_CONTROL_MASK
  else if mod_key = "alt" then pure GDK_MOD1_MASK
  else if mod_key = "meta" then pure GDK_SUPER_MASK
  else g_error ("Invalid mod-key configuration value: '" ++ mod_key ++ "'\n")

/-- Initialize the configuration, sourcing the greeter's configuration file.
`file` is what `g_key_file_load_from_file` made of `CONFIG_FILE`: `none` when
it returned `FALSE`. -/
def initialize_config {RGBA : Type} (gdk : Gdk RGBA) (file : Option GKeyFile) :
    Outcome (Config RGBA) := do
  let keyfile ← (match file with
    | some keyfile => pure keyfile
    | none => g_error "Could not load configuration file.")
  let login_user := string_or (g_key_file_get_string keyfile "greeter" "user") "CHANGE_ME"
  if login_user = "CHANGE_ME" then
    g_message "User configuration value is unchanged."
  let show_password_label :=
    boolean_or_true (g_key_file_get_boolean keyfile "greeter" "show-password-label")
  let password_label_text :=
    string_or (g_key_file_get_string keyfile "greeter" "password-label-text") "Password:"
  let show_input_cursor :=
    boolean_or_true (g_key_file_get_boolean keyfile "greeter" "show-input-cursor")
  let suspend_key ← parse_greeter_hotkey_keyval gdk keyfile "suspend-key" "u"
  let hibernate_key ← parse_greeter_hotkey_keyval gdk keyfile "hibernate-key" "h"
  let restart_key ← parse_greeter_hotkey_keyval gdk keyfile "restart-key" "r"
  let shutdown_key ← parse_greeter_hotkey_keyval gdk keyfile "shutdown-key" "s"
  let mod_key := string_or (g_key_file_get_string keyfile "greeter-hotkeys" "mod-key") "meta"
  let mod_bit ← mod_bit_of mod_key
  let font := string_or (g_key_file_get_string keyfile "greeter-theme" "font") "Sans"
  let font_size := string_or (g_key_file_get_string keyfile "greeter-theme" "font-size") "1em"
  let text_color ← parse_greeter_color_key gdk keyfile "text-color" "#080800"
  let error_color ← parse_greeter_color_key gdk keyfile "error-color" "#F8F8F0"
  let background_image :=
    background_image_of (g_key_file_get_string keyfile "greeter-theme" "background-image")
  let background_color ← parse_greeter_color_key gdk keyfile "background-color" "#1B1D1E"
  let window_color ← parse_greeter_color_key gdk keyfile "window-color" "#F92672"
  let border_color ← parse_greeter_color_key gdk keyfile "border-color" "#080800"
  let password_color ← parse_greeter_color_key gdk keyfile "password-color" "#F8F8F0"
  let password_background_color ←
    parse_greeter_color_key gdk keyfile "password-background-color" "#1B1D1E"
  let border_width :=
    string_or (g_key_file_get_string keyfile "greeter-theme" "border-width") "2px"
  let layout_spacing :=
    layout_spacing_of (g_key_file_get_integer keyfile "greeter-theme" "layout-space")
  return {
    login_user, show_password_label, password_label_text, show_input_cursor,
    suspend_key, hibernate_key, restart_key, shutdown_key, mod_bit, font, font_size,
    text_color, error_color, background_image, background_color, window_color,
    border_color, password_color, password_background_color, border_width,
    layout_spacing }

/-- What `parse_greeter_color_key` stores in the colour it returns: the result
of `gdk_rgba_parse` on the stripped string (lines 166-180). -/
def color_of {RGBA : Type} (gdk : Gdk RGBA) (keyfile : GKeyFile)
    (key_name fallback : String) : Option RGBA :=
  gdk.gdk_rgba_parse (strip_color_quotes (read_color_string keyfile key_name fallback))

/-! ## Fatal runs -/

/-- A run has logged a line at the error level. -/
def Outcome.fatal {α : Type} (x : Outcome α) : Prop :=
  ∃ d, d ∈ x.log ∧ d.level = LogLevel.error

/-- A run returns nothing exactly when it logged an error. -/
def Outcome.sound {α : Type} (x : Outcome α) : Prop :=
  x.value = none ↔ x.fatal

/-! ## The lines of the log -/

/-- The line `initialize_config` writes with `g_message` when the login user is
still the placeholder (line 41). -/
def unchanged_user_line : Diagnostic :=
  ⟨LogLevel.message, "User configuration value is unchanged."⟩

/-- The line `parse_greeter_color_key` writes with `g_critical` for the key
`key_name` when `gdk_rgba_parse` fails on `color_string` (lines 182-183). -/
def color_warning_line (key_name color_string : String) : Diagnostic :=
  ⟨LogLevel.critical, "Could not parse the '" ++ key_name ++ "' setting: " ++ color_string⟩

/-- A run that wrote no line at the message level. -/
def Outcome.quiet {α : Type} (x : Outcome α) : Prop :=
  ∀ d, d ∈ x.log → d.level ≠ LogLevel.message

/-! ## Sample inputs -/

/-- A GDK stand-in whose colour parser accepts exactly the strings that begin
with `#` and returns the characters after it, whose key values are the code
points themselves, and whose `char` is signed. -/
def sampleGdk : Gdk String where
  gdk_rgba_parse := fun s =>
    match s.toList with
    | c :: rest => if c = Char.ofNat 35 then some (String.mk rest) else none
    | [] => none
  gdk_unicode_to_keyval := fun wc => wc
  char_is_signed := true

/-- The key file with no key at all: every read sets an error. -/
def emptyKeyFile : GKeyFile where
  strings := fun _ _ => none
  booleans := fun _ _ => none
  integers := fun _ _ => none

/-- The key file holding the one string entry `key = value` in `group`. -/
def oneString (group key value : String) : GKeyFile where
  strings := fun g k => if g = group ∧ k = key then some value else none
  booleans := fun _ _ => none
  integers := fun _ _ => none

/-- The key file holding the one integer entry `layout-space = n`. -/
def oneSpacing (n : Int) : GKeyFile where
  strings := fun _ _ => none
  booleans := fun _ _ => none
  integers := fun g k => if g = "greeter-theme" ∧ k = "layout-space" then some n else none

/-! ## General facts about the embedding -/

theorem Outcome.value_bind {α β : Type} (x : Outcome α) (f : α → Outcome β) :
    (x >>= f).value = x.value.bind (fun a => (f a).value) := by
  show (Outcome.andThen x f).value = _
  unfold Outcome.andThen
  cases h : x.value <;> simp

theorem Outcome.value_pure {α : Type} (a : α) : (pure a : Outcome α).value = some a := rfl

theorem parse_greeter_color_key_value {RGBA : Type} (gdk : Gdk RGBA) (keyfile : GKeyFile)
    (key_name fallback : String) :
    (parse_greeter_color_key gdk keyfile key_name fallback).value
      = some (color_of gdk keyfile key_name fallback) := by
  unfold parse_greeter_color_key color_of
  cases h : gdk.gdk_rgba_parse (strip_color_quotes (read_color_string keyfile key_name fallback))
    <;> simp [h, g_critical, Outcome.value_pure, Outcome.value_bind]

theorem parse_greeter_hotkey_keyval_value {RGBA : Type} (gdk : Gdk RGBA) (keyfile : GKeyFile)
    (key_name fallback : String) :
    (parse_greeter_hotkey_keyval gdk keyfile key_name fallback).value
      = if read_hotkey_string keyfile key_name fallback = "" then none
        else some (gdk.gdk_unicode_to_keyval
          (hotkey_argument gdk.char_is_signed (read_hotkey_string keyfile key_name fallback))) := by
  unfold parse_greeter_hotkey_keyval
  by_cases h : read_hotkey_string keyfile key_name fallback = ""
    <;> simp [h, g_error, Outcome.value_pure, Outcome.value_bind]

theorem mod_bit_of_value (mod_key : String) :
    (mod_bit_of mod_key).value
      = if mod_key = "control" then some GDK_CONTROL_MASK
        else if mod_key = "alt" then some GDK_MOD1_MASK
        else if mod_key = "meta" then some GDK_SUPER_MASK
        else none := by
  unfold mod_bit_of
  split_ifs <;> simp [g_error, Outcome.value_pure]

/-- Four guarded values and an optional fifth, read in sequence: the result
exists exactly when no guard fires and the fifth is there. -/
theorem initialize_config_shape {C : Type} (cfg : C) (F : ℕ → ℕ → ℕ → ℕ → ℕ → C)
    (p₁ p₂ p₃ p₄ : Prop) [Decidable p₁] [Decidable p₂] [Decidable p₃] [Decidable p₄]
    (k₁ k₂ k₃ k₄ : ℕ) (m : Option ℕ) :
    ((if p₁ then none else some k₁).bind fun a =>
      (if p₂ then none else some k₂).bind fun b =>
        (if p₃ then none else some k₃).bind fun c =>
          (if p₄ then none else some k₄).bind fun d =>
            m.bind fun e => some (F a b c d e)) = some cfg ↔
      ¬p₁ ∧ ¬p₂ ∧ ¬p₃ ∧ ¬p₄ ∧ ∃ e, m = some e ∧ cfg = F k₁ k₂ k₃ k₄ e := by
  by_cases h₁ : p₁ <;> by_cases h₂ : p₂ <;> by_cases h₃ : p₃ <;> by_cases h₄ : p₄ <;>
    cases m <;> simp [h₁, h₂, h₃, h₄, eq_comm]

/-- The value of a load, spelled out: a record exactly when the file loaded,
the four hotkey strings are non-empty and the `mod-key` string names a mask. -/
theorem initialize_config_value_eq {RGBA : Type} (gdk : Gdk RGBA) (keyfile : GKeyFile)
    (cfg : Config RGBA) :
    (initialize_config gdk (some keyfile)).value = some cfg ↔
      read_hotkey_string keyfile "suspend-key" "u" ≠ ""
        ∧ read_hotkey_string keyfile "hibernate-key" "h" ≠ ""
        ∧ read_hotkey_string keyfile "restart-key" "r" ≠ ""
        ∧ read_hotkey_string keyfile "shutdown-key" "s" ≠ ""
        ∧ ∃ mod_bit,
          (mod_bit_of (string_or
            (g_key_file_get_string keyfile "greeter-hotkeys" "mod-key") "meta")).value
              = some mod_bit
          ∧ cfg = {
            login_user := string_or (g_key_file_get_string keyfile "greeter" "user") "CHANGE_ME"
            show_password_label :=
              boolean_or_true (g_key_file_get_boolean keyfile "greeter" "show-password-label")
            password_label_text :=
              string_or (g_key_file_get_string keyfile "greeter" "password-label-text")
                "Password:"
            show_input_cursor :=
              boolean_or_true (g_key_file_get_boolean keyfile "greeter" "show-input-cursor")
            suspend_key := gdk.gdk_unicode_to_keyval
              (hotkey_argument gdk.char_is_signed (read_hotkey_string keyfile "suspend-key" "u"))
            hibernate_key := gdk.gdk_unicode_to_keyval
              (hotkey_argument gdk.char_is_signed (read_hotkey_string keyfile "hibernate-key" "h"))
            restart_key := gdk.gdk_unicode_to_keyval
              (hotkey_argument gdk.char_is_signed (read_hotkey_string keyfile "restart-key" "r"))
            shutdown_key := gdk.gdk_unicode_to_keyval
              (hotkey_argument gdk.char_is_signed (read_hotkey_string keyfile "shutdown-key" "s"))
            mod_bit := mod_bit
            font := string_or (g_key_file_get_string keyfile "greeter-theme" "font") "Sans"
            font_size :=
              string_or (g_key_file_get_string keyfile "greeter-theme" "font-size") "1em"
            text_color := color_of gdk keyfile "text-color" "#080800"
            error_color := color_of gdk keyfile "error-color" "#F8F8F0"
            background_image := background_image_of
              (g_key_file_get_string keyfile "greeter-theme" "background-image")
            background_color := color_of gdk keyfile "background-color" "#1B1D1E"
            window_color := color_of gdk keyfile "window-color" "#F92672"
            border_color := color_of gdk keyfile "border-color" "#080800"
            password_color := color_of gdk keyfile "password-color" "#F8F8F0"
            password_background_color :=
              color_of gdk keyfile "password-background-color" "#1B1D1E"
            border_width :=
              string_or (g_key_file_get_string keyfile "greeter-theme" "border-width") "2px"
            layout_spacing := layout_spacing_of
              (g_key_file_get_integer keyfile "greeter-theme" "layout-space") } := by
  unfold initialize_config
  simp only [Outcome.value_bind, Outcome.value_pure, Option.some_bind]
  have shape := initialize_config_shape cfg (fun a b c d e => {
      login_user := string_or (g_key_file_get_string keyfile "greeter" "user") "CHANGE_ME"
      show_password_label :=
        boolean_or_true (g_key_file_get_boolean keyfile "greeter" "show-password-label")
      password_label_text :=
        string_or (g_key_file_get_string keyfile "greeter" "password-label-text") "Password:"
      show_input_cursor :=
        boolean_or_true (g_key_file_get_boolean keyfile "greeter" "show-input-cursor")
      suspend_key := a
      hibernate_key := b
      restart_key := c
      shutdown_key := d
      mod_bit := e
      font := string_or (g_key_file_get_string keyfile "greeter-theme" "font") "Sans"
      font_size := string_or (g_key_file_get_string keyfile "greeter-theme" "font-size") "1em"
      text_color := color_of gdk keyfile "text-color" "#080800"
      error_color := color_of gdk keyfile "error-color" "#F8F8F0"
      background_image := background_image_of
        (g_key_file_get_string keyfile "greeter-theme" "background-image")
      background_color := color_of gdk keyfile "background-color" "#1B1D1E"
      window_color := color_of gdk keyfile "window-color" "#F92672"
      border_color := color_of gdk keyfile "border-color" "#080800"
      password_color := color_of gdk keyfile "password-color" "#F8F8F0"
      password_background_color := color_of gdk keyfile "password-background-color" "#1B1D1E"
      border_width :=
        string_or (g_key_file_get_string keyfile "greeter-theme" "border-width") "2px"
      layout_spacing := layout_spacing_of
        (g_key_file_get_integer keyfile "greeter-theme" "layout-space") })
  by_cases hu : string_or (g_key_file_get_string keyfile "greeter" "user") "CHANGE_ME"
      = "CHANGE_ME"
  · rw [if_pos hu]
    simp only [Outcome.value_bind, Outcome.value_pure,
      parse_greeter_color_key_value, parse_greeter_hotkey_keyval_value, g_message,
      Option.some_bind]
    exact shape (read_hotkey_string keyfile "suspend-key" "u" = "")
      (read_hotkey_string keyfile "hibernate-key" "h" = "")
      (read_hotkey_string keyfile "restart-key" "r" = "")
      (read_hotkey_string keyfile "shutdown-key" "s" = "") _ _ _ _ _
  · rw [if_neg hu]
    simp only [Outcome.value_bind, Outcome.value_pure,
      parse_greeter_color_key_value, parse_greeter_hotkey_keyval_value,
      Option.some_bind]
    exact shape (read_hotkey_string keyfile "suspend-key" "u" = "")
      (read_hotkey_string keyfile "hibernate-key" "h" = "")
      (read_hotkey_string keyfile "restart-key" "r" = "")
      (read_hotkey_string keyfile "shutdown-key" "s" = "") _ _ _ _ _

/-- A configuration file that cannot be loaded aborts the load. -/
theorem initialize_config_no_file {RGBA : Type} (gdk : Gdk RGBA) :
    (initialize_config gdk none).value = none := by
  simp [initialize_config, Outcome.value_bind, g_error]

/-! ## The fields of a returned record -/

theorem loaded_layout_spacing {RGBA : Type} {gdk : Gdk RGBA} {keyfile : GKeyFile}
    {cfg : Config RGBA} (loaded : (initialize_config gdk (some keyfile)).value = some cfg) :
    cfg.layout_spacing
      = layout_spacing_of (g_key_file_get_integer keyfile "greeter-theme" "layout-space") := by
  obtain ⟨-, -, -, -, e, -, rfl⟩ := (initialize_config_value_eq gdk keyfile cfg).mp loaded
  rfl

theorem loaded_colors {RGBA : Type} {gdk : Gdk RGBA} {keyfile : GKeyFile}
    {cfg : Config RGBA} (loaded : (initialize_config gdk (some keyfile)).value = some cfg) :
    cfg.text_color = color_of gdk keyfile "text-color" "#080800"
      ∧ cfg.error_color = color_of gdk keyfile "error-color" "#F8F8F0"
      ∧ cfg.background_color = color_of gdk keyfile "background-color" "#1B1D1E"
      ∧ cfg.window_color = color_of gdk keyfile "window-color" "#F92672"
      ∧ cfg.border_color = color_of gdk keyfile "border-color" "#080800"
      ∧ cfg.password_color = color_of gdk keyfile "password-color" "#F8F8F0"
      ∧ cfg.password_background_color
          = color_of gdk keyfile "password-background-color" "#1B1D1E" := by
  obtain ⟨-, -, -, -, e, -, rfl⟩ := (initialize_config_value_eq gdk keyfile cfg).mp loaded
  exact ⟨rfl, rfl, rfl, rfl, rfl, rfl, rfl⟩

theorem loaded_mod_bit {RGBA : Type} {gdk : Gdk RGBA} {keyfile : GKeyFile}
    {cfg : Config RGBA} (loaded : (initialize_config gdk (some keyfile)).value = some cfg) :
    (mod_bit_of (string_or (g_key_file_get_string keyfile "greeter-hotkeys" "mod-key")
      "meta")).value = some cfg.mod_bit := by
  obtain ⟨-, -, -, -, e, he, rfl⟩ := (initialize_config_value_eq gdk keyfile cfg).mp loaded
  exact he

theorem loaded_hotkeys {RGBA : Type} {gdk : Gdk RGBA} {keyfile : GKeyFile}
    {cfg : Config RGBA} (loaded : (initialize_config gdk (some keyfile)).value = some cfg) :
    (read_hotkey_string keyfile "suspend-key" "u" ≠ ""
      ∧ cfg.suspend_key = gdk.gdk_unicode_to_keyval
          (hotkey_argument gdk.char_is_signed (read_hotkey_string keyfile "suspend-key" "u")))
    ∧ (read_hotkey_string keyfile "hibernate-key" "h" ≠ ""
      ∧ cfg.hibernate_key = gdk.gdk_unicode_to_keyval
          (hotkey_argument gdk.char_is_signed (read_hotkey_string keyfile "hibernate-key" "h")))
    ∧ (read_hotkey_string keyfile "restart-key" "r" ≠ ""
      ∧ cfg.restart_key = gdk.gdk_unicode_to_keyval
          (hotkey_argument gdk.char_is_signed (read_hotkey_string keyfile "restart-key" "r")))
    ∧ (read_hotkey_string keyfile "shutdown-key" "s" ≠ ""
      ∧ cfg.shutdown_key = gdk.gdk_unicode_to_keyval
          (hotkey_argument gdk.char_is_signed (read_hotkey_string keyfile "shutdown-key" "s"))) := by
  obtain ⟨h₁, h₂, h₃, h₄, e, -, rfl⟩ := (initialize_config_value_eq gdk keyfile cfg).mp loaded
  exact ⟨⟨h₁, rfl⟩, ⟨h₂, rfl⟩, ⟨h₃, rfl⟩, ⟨h₄, rfl⟩⟩

theorem loaded_scalars {RGBA : Type} {gdk : Gdk RGBA} {keyfile : GKeyFile}
    {cfg : Config RGBA} (loaded : (initialize_config gdk (some keyfile)).value = some cfg) :
    cfg.login_user = string_or (g_key_file_get_string keyfile "greeter" "user") "CHANGE_ME"
      ∧ cfg.password_label_text
          = string_or (g_key_file_get_string keyfile "greeter" "password-label-text") "Password:"
      ∧ cfg.show_password_label
          = boolean_or_true (g_key_file_get_boolean keyfile "greeter" "show-password-label")
      ∧ cfg.show_input_cursor
          = boolean_or_true (g_key_file_get_boolean keyfile "greeter" "show-input-cursor")
      ∧ cfg.font = string_or (g_key_file_get_string keyfile "greeter-theme" "font") "Sans"
      ∧ cfg.font_size
          = string_or (g_key_file_get_string keyfile "greeter-theme" "font-size") "1em"
      ∧ cfg.border_width
          = string_or (g_key_file_get_string keyfile "greeter-theme" "border-width") "2px"
      ∧ cfg.background_image = background_image_of
          (g_key_file_get_string keyfile "greeter-theme" "background-image") := by
  obtain ⟨-, -, -, -, e, -, rfl⟩ := (initialize_config_value_eq gdk keyfile cfg).mp loaded
  exact ⟨rfl, rfl, rfl, rfl, rfl, rfl, rfl, rfl⟩

/-! ## Aborted runs are the runs that logged an error -/

theorem Outcome.sound_pure {α : Type} (a : α) : (pure a : Outcome α).sound := by
  show (Outcome.ret a).sound
  simp [Outcome.sound, Outcome.fatal, Outcome.ret]

theorem Outcome.sound_bind {α β : Type} (x : Outcome α) (f : α → Outcome β)
    (hx : x.sound) (hf : ∀ a, (f a).sound) : (x >>= f).sound := by
  show (Outcome.andThen x f).sound
  unfold Outcome.sound Outcome.fatal at *
  unfold Outcome.andThen
  cases h : x.value with
  | none => simpa [h] using hx
  | some a =>
    have hx' : ¬ ∃ d, d ∈ x.log ∧ d.level = LogLevel.error := by
      intro hex
      have := hx.mpr hex
      simp [h] at this
    have hfa := hf a
    constructor
    · intro hv
      obtain ⟨d, hd, hl⟩ := hfa.mp hv
      exact ⟨d, by simp [hd], hl⟩
    · rintro ⟨d, hd, hl⟩
      simp only [List.mem_append] at hd
      rcases hd with hd | hd
      · exact absurd ⟨d, hd, hl⟩ hx'
      · exact hfa.mpr ⟨d, hd, hl⟩

theorem g_message_sound (text : String) : (g_message text).sound := by
  simp [Outcome.sound, Outcome.fatal, g_message]

theorem g_critical_sound (text : String) : (g_critical text).sound := by
  simp [Outcome.sound, Outcome.fatal, g_critical]

theorem g_error_sound {α : Type} (text : String) : (g_error text : Outcome α).sound := by
  simp [Outcome.sound, Outcome.fatal, g_error]

theorem parse_greeter_color_key_sound {RGBA : Type} (gdk : Gdk RGBA) (keyfile : GKeyFile)
    (key_name fallback : String) :
    (parse_greeter_color_key gdk keyfile key_name fallback).sound := by
  unfold parse_greeter_color_key
  dsimp only
  split_ifs
  · exact Outcome.sound_bind _ _ (g_critical_sound _) (fun _ => Outcome.sound_pure _)
  · exact Outcome.sound_bind _ _ (Outcome.sound_pure _) (fun _ => Outcome.sound_pure _)

theorem parse_greeter_hotkey_keyval_sound {RGBA : Type} (gdk : Gdk RGBA) (keyfile : GKeyFile)
    (key_name fallback : String) :
    (parse_greeter_hotkey_keyval gdk keyfile key_name fallback).sound := by
  unfold parse_greeter_hotkey_keyval
  dsimp only
  split_ifs
  · exact Outcome.sound_bind _ _ (g_error_sound _) (fun _ => Outcome.sound_pure _)
  · exact Outcome.sound_bind _ _ (Outcome.sound_pure _) (fun _ => Outcome.sound_pure _)

theorem mod_bit_of_sound (mod_key : String) : (mod_bit_of mod_key).sound := by
  unfold mod_bit_of
  split_ifs
  · exact Outcome.sound_pure _
  · exact Outcome.sound_pure _
  · exact Outcome.sound_pure _
  · exact g_error_sound _

theorem initialize_config_sound {RGBA : Type} (gdk : Gdk RGBA) (file : Option GKeyFile) :
    (initialize_config gdk file).sound := by
  unfold initialize_config
  refine Outcome.sound_bind _ _ ?_ (fun keyfile => ?_)
  · cases file
    · exact g_error_sound _
    · exact Outcome.sound_pure _
  · dsimp only
    split_ifs <;>
      repeat first
        | exact Outcome.sound_pure _
        | exact g_message_sound _
        | exact mod_bit_of_sound _
        | exact parse_greeter_hotkey_keyval_sound _ _ _ _
        | exact parse_greeter_color_key_sound _ _ _ _
        | refine Outcome.sound_bind _ _ ?_ (fun _ => ?_)

/-! ## The claims -/

/-- C1: `initialize_config` returns a `Config` if and only if the key file
loads, each of the four hotkey keys resolves (by value or by default) to a
non-empty string, and `mod-key` resolves to one of `control`, `alt`, `meta`;
otherwise it returns nothing, and it returns nothing exactly when a fatal
error line has been logged. No scalar key and no colour string occurs in the
condition, so none of them can make the load fail. -/
theorem C1_load_returns_iff {RGBA : Type} (gdk : Gdk RGBA) (file : Option GKeyFile) :
    ((∃ cfg, (initialize_config gdk file).value = some cfg) ↔
      ∃ keyfile, file = some keyfile
        ∧ read_hotkey_string keyfile "suspend-key" "u" ≠ ""
        ∧ read_hotkey_string keyfile "hibernate-key" "h" ≠ ""
        ∧ read_hotkey_string keyfile "restart-key" "r" ≠ ""
        ∧ read_hotkey_string keyfile "shutdown-key" "s" ≠ ""
        ∧ (string_or (g_key_file_get_string keyfile "greeter-hotkeys" "mod-key") "meta"
              = "control"
            ∨ string_or (g_key_file_get_string keyfile "greeter-hotkeys" "mod-key") "meta"
              = "alt"
            ∨ string_or (g_key_file_get_string keyfile "greeter-hotkeys" "mod-key") "meta"
              = "meta"))
    ∧ ((initialize_config gdk file).value = none ↔
        ∃ d, d ∈ (initialize_config gdk file).log ∧ d.level = LogLevel.error) := by
  refine ⟨?_, initialize_config_sound gdk file⟩
  cases file with
  | none => simp [initialize_config_no_file]
  | some keyfile =>
    simp only [initialize_config_value_eq, mod_bit_of_value, Option.some.injEq,
      exists_eq_left']
    constructor
    · rintro ⟨cfg, h₁, h₂, h₃, h₄, e, he, -⟩
      refine ⟨h₁, h₂, h₃, h₄, ?_⟩
      by_contra hmod
      push_neg at hmod
      simp [hmod.1, hmod.2.1, hmod.2.2] at he
    · rintro ⟨h₁, h₂, h₃, h₄, hmod⟩
      rcases hmod with hm | hm | hm
      · exact ⟨_, h₁, h₂, h₃, h₄, GDK_CONTROL_MASK, by simp [hm], rfl⟩
      · exact ⟨_, h₁, h₂, h₃, h₄, GDK_MOD1_MASK, by simp [hm], rfl⟩
      · exact ⟨_, h₁, h₂, h₃, h₄, GDK_SUPER_MASK, by simp [hm], rfl⟩

/-- C2: with no `layout-space` key the load stores 0 in `layout_spacing`, not
the default 15: the 15 written on the read error is overwritten from the local
`layout_spacing`, which holds the 0 that `g_key_file_get_integer` returns with
an error. The error flag has no effect on the value stored. -/
theorem C2_absent_layout_space_stores_zero :
    (initialize_config sampleGdk (some emptyKeyFile)).value.map (fun c => c.layout_spacing)
        = some 0
    ∧ g_key_file_get_integer emptyKeyFile "greeter-theme" "layout-space" = (0, true)
    ∧ layout_spacing_of (0, true) ≠ 15
    ∧ ∀ n : Int, layout_spacing_of (n, true) = layout_spacing_of (n, false) := by
  refine ⟨by rfl, by rfl, by decide, ?_⟩
  intro n
  by_cases h : n < 0 <;> simp [layout_spacing_of, h]

theorem layout_spacing_of_present (n : Int) (lo : -2147483648 ≤ n) (hi : n < 2147483648) :
    layout_spacing_of (n, false) = n.natAbs := by
  by_cases h : n < 0
  · simp only [layout_spacing_of, h, Id.run, to_guint, wrap_gint]
    simp
    omega
  · simp only [layout_spacing_of, h, Id.run, to_guint]
    simp
    omega

/-- C3, as stated, fails at the extreme value: with `layout-space` set to
-2^31 the stored `layout_spacing` is 2^31, which is the 32-bit
two's-complement image of the negative number -2^31 itself. -/
theorem C3_extreme_is_image_of_negative :
    ∃ cfg m, (initialize_config sampleGdk (some (oneSpacing (-2147483648)))).value = some cfg
      ∧ -2147483648 ≤ m ∧ m < 0 ∧ cfg.layout_spacing = to_guint m :=
  ⟨_, -2147483648, rfl, by decide, by decide, by rfl⟩

/-- C3, amended: for every 32-bit signed `n` present as the value of
`layout-space`, a returned `Config` has `layout_spacing` equal to the absolute
value of `n` (the negation being taken modulo 2^32), so at most 2^31; and for
every `n` other than -2^31 it is below 2^31, hence not the two's-complement
image of any negative 32-bit number. -/
theorem C3_layout_spacing_is_abs {RGBA : Type} (gdk : Gdk RGBA) (keyfile : GKeyFile)
    (cfg : Config RGBA) (n : Int) (lo : -2147483648 ≤ n) (hi : n < 2147483648)
    (present : keyfile.integers "greeter-theme" "layout-space" = some n)
    (loaded : (initialize_config gdk (some keyfile)).value = some cfg) :
    cfg.layout_spacing = n.natAbs
      ∧ cfg.layout_spacing ≤ 2147483648
      ∧ (n ≠ -2147483648 → cfg.layout_spacing < 2147483648
          ∧ ∀ m : Int, -2147483648 ≤ m → m < 0 → cfg.layout_spacing ≠ to_guint m) := by
  have hread : g_key_file_get_integer keyfile "greeter-theme" "layout-space" = (n, false) := by
    simp [g_key_file_get_integer, present]
  have habs : cfg.layout_spacing = n.natAbs := by
    rw [loaded_layout_spacing loaded, hread]
    exact layout_spacing_of_present n lo hi
  rw [habs]
  refine ⟨rfl, by omega, fun hn => ⟨by omega, fun m hm₁ hm₂ => ?_⟩⟩
  have : to_guint m = (m + 4294967296).toNat := by
    unfold to_guint
    congr 1
    omega
  rw [this]
  omega

/-- C3, witness: `layout-space = -7` gives 7. -/
theorem C3_layout_spacing_is_abs_witness :
    ∃ cfg, (initialize_config sampleGdk (some (oneSpacing (-7)))).value = some cfg
      ∧ cfg.layout_spacing = 7 :=
  ⟨_, rfl, by
    have h := (C3_layout_spacing_is_abs sampleGdk (oneSpacing (-7)) _ (-7) (by decide)
      (by decide) (by rfl) rfl).1
    simpa using h⟩

/-- C4, as stated, fails: with `text-color = red` and a colour parser that
rejects `red`, the load still returns a `Config`; the parser produced no RGBA
for the `text-color` string and the field holds none. -/
theorem C4_rejected_colour_still_loads :
    ∃ cfg, (initialize_config sampleGdk
        (some (oneString "greeter-theme" "text-color" "red"))).value = some cfg
      ∧ sampleGdk.gdk_rgba_parse (strip_color_quotes (read_color_string
          (oneString "greeter-theme" "text-color" "red") "text-color" "#080800")) = none
      ∧ cfg.text_color = none :=
  ⟨_, rfl, rfl, rfl⟩

/-- C4, amended: on every load that returns a `Config`, each of the seven
colour fields whose string the colour parser accepts holds the RGBA the parser
produced from that string; and whether the load returns does not depend on the
colour parser, so a rejected colour string never terminates the load. -/
theorem C4_accepted_colours_are_stored {RGBA : Type} (gdk : Gdk RGBA) (keyfile : GKeyFile)
    (cfg : Config RGBA) (loaded : (initialize_config gdk (some keyfile)).value = some cfg) :
    (∀ rgba, gdk.gdk_rgba_parse (strip_color_quotes
        (read_color_string keyfile "text-color" "#080800")) = some rgba →
        cfg.text_color = some rgba)
    ∧ (∀ rgba, gdk.gdk_rgba_parse (strip_color_quotes
        (read_color_string keyfile "error-color" "#F8F8F0")) = some rgba →
        cfg.error_color = some rgba)
    ∧ (∀ rgba, gdk.gdk_rgba_parse (strip_color_quotes
        (read_color_string keyfile "background-color" "#1B1D1E")) = some rgba →
        cfg.background_color = some rgba)
    ∧ (∀ rgba, gdk.gdk_rgba_parse (strip_color_quotes
        (read_color_string keyfile "window-color" "#F92672")) = some rgba →
        cfg.window_color = some rgba)
    ∧ (∀ rgba, gdk.gdk_rgba_parse (strip_color_quotes
        (read_color_string keyfile "border-color" "#080800")) = some rgba →
        cfg.border_color = some rgba)
    ∧ (∀ rgba, gdk.gdk_rgba_parse (strip_color_quotes
        (read_color_string keyfile "password-color" "#F8F8F0")) = some rgba →
        cfg.password_color = some rgba)
    ∧ (∀ rgba, gdk.gdk_rgba_parse (strip_color_quotes
        (read_color_string keyfile "password-background-color" "#1B1D1E")) = some rgba →
        cfg.password_background_color = some rgba)
    ∧ ∀ other_parse : String → Option RGBA,
        ∃ cfg', (initialize_config { gdk with gdk_rgba_parse := other_parse }
          (some keyfile)).value = some cfg' := by
  obtain ⟨h₁, h₂, h₃, h₄, h₅, h₆, h₇⟩ := loaded_colors loaded
  refine ⟨?_, ?_, ?_, ?_, ?_, ?_, ?_, ?_⟩
  · intro rgba h; rw [h₁]; exact h
  · intro rgba h; rw [h₂]; exact h
  · intro rgba h; rw [h₃]; exact h
  · intro rgba h; rw [h₄]; exact h
  · intro rgba h; rw [h₅]; exact h
  · intro rgba h; rw [h₆]; exact h
  · intro rgba h; rw [h₇]; exact h
  · intro other_parse
    obtain ⟨k₁, k₂, k₃, k₄, e, he, -⟩ := (initialize_config_value_eq gdk keyfile cfg).mp loaded
    exact ⟨_, (initialize_config_value_eq _ keyfile _).mpr ⟨k₁, k₂, k₃, k₄, e, he, rfl⟩⟩

/-- C4, witness: the empty key file loads, and its `text-color` is what the
parser makes of the default `#080800`. -/
theorem C4_accepted_colours_are_stored_witness :
    ∃ cfg, (initialize_config sampleGdk (some emptyKeyFile)).value = some cfg
      ∧ cfg.text_color = some "080800" :=
  ⟨_, rfl, (C4_accepted_colours_are_stored sampleGdk emptyKeyFile _ rfl).1 "080800" rfl⟩

/-- C5: on every load that returns a `Config`, `mod_bit` follows the `mod-key`
string: `control` gives `GDK_CONTROL_MASK`, `alt` gives `GDK_MOD1_MASK`, `meta`
gives `GDK_SUPER_MASK`, an absent key gives `GDK_SUPER_MASK`; a value in the
file is one of these three strings, and `mod_bit` is one of the three masks,
which are pairwise different. -/
theorem C5_mod_bit_follows_mod_key {RGBA : Type} (gdk : Gdk RGBA) (keyfile : GKeyFile)
    (cfg : Config RGBA) (loaded : (initialize_config gdk (some keyfile)).value = some cfg) :
    (∀ v, keyfile.strings "greeter-hotkeys" "mod-key" = some v →
        (v = "control" ∧ cfg.mod_bit = GDK_CONTROL_MASK)
          ∨ (v = "alt" ∧ cfg.mod_bit = GDK_MOD1_MASK)
          ∨ (v = "meta" ∧ cfg.mod_bit = GDK_SUPER_MASK))
    ∧ (keyfile.strings "greeter-hotkeys" "mod-key" = none → cfg.mod_bit = GDK_SUPER_MASK)
    ∧ (cfg.mod_bit = GDK_CONTROL_MASK ∨ cfg.mod_bit = GDK_MOD1_MASK
        ∨ cfg.mod_bit = GDK_SUPER_MASK)
    ∧ GDK_CONTROL_MASK ≠ GDK_MOD1_MASK ∧ GDK_CONTROL_MASK ≠ GDK_SUPER_MASK
    ∧ GDK_MOD1_MASK ≠ GDK_SUPER_MASK := by
  have hm := loaded_mod_bit loaded
  rw [mod_bit_of_value] at hm
  have key : ∀ m : String, (if m = "control" then some GDK_CONTROL_MASK
        else if m = "alt" then some GDK_MOD1_MASK
        else if m = "meta" then some GDK_SUPER_MASK else none) = some cfg.mod_bit →
      (m = "control" ∧ cfg.mod_bit = GDK_CONTROL_MASK)
        ∨ (m = "alt" ∧ cfg.mod_bit = GDK_MOD1_MASK)
        ∨ (m = "meta" ∧ cfg.mod_bit = GDK_SUPER_MASK) := by
    intro m h
    split_ifs at h with c₁ c₂ c₃
    · exact Or.inl ⟨c₁, (Option.some.inj h).symm⟩
    · exact Or.inr (Or.inl ⟨c₂, (Option.some.inj h).symm⟩)
    · exact Or.inr (Or.inr ⟨c₃, (Option.some.inj h).symm⟩)
  refine ⟨?_, ?_, ?_, by decide, by decide, by decide⟩
  · intro v hv
    apply key v
    simpa [g_key_file_get_string, hv, string_or] using hm
  · intro hnone
    have h := key "meta" (by simpa [g_key_file_get_string, hnone, string_or] using hm)
    rcases h with ⟨c, -⟩ | ⟨c, -⟩ | ⟨-, h⟩
    · exact absurd c (by decide)
    · exact absurd c (by decide)
    · exact h
  · rcases key _ hm with ⟨-, h⟩ | ⟨-, h⟩ | ⟨-, h⟩
    · exact Or.inl h
    · exact Or.inr (Or.inl h)
    · exact Or.inr (Or.inr h)

/-- C5, witness: `mod-key = control` loads with the Control mask. -/
theorem C5_mod_bit_follows_mod_key_witness :
    ∃ cfg, (initialize_config sampleGdk
        (some (oneString "greeter-hotkeys" "mod-key" "control"))).value = some cfg
      ∧ cfg.mod_bit = GDK_CONTROL_MASK :=
  ⟨_, rfl, by
    have h := (C5_mod_bit_follows_mod_key sampleGdk
      (oneString "greeter-hotkeys" "mod-key" "control") _ rfl).1 "control" rfl
    rcases h with ⟨-, h⟩ | ⟨c, -⟩ | ⟨c, -⟩
    · exact h
    · exact absurd c (by decide)
    · exact absurd c (by decide)⟩

/-- C6: on every load that returns a `Config`, an absent `background-image`
key, or one whose value is the empty string, gives the sentinel made of two
double-quote characters, and every non-empty value is stored unchanged. -/
theorem C6_background_image {RGBA : Type} (gdk : Gdk RGBA) (keyfile : GKeyFile)
    (cfg : Config RGBA) (loaded : (initialize_config gdk (some keyfile)).value = some cfg) :
    (keyfile.strings "greeter-theme" "background-image" = none →
        cfg.background_image = String.mk [Char.ofNat 34, Char.ofNat 34])
    ∧ (keyfile.strings "greeter-theme" "background-image" = some "" →
        cfg.background_image = String.mk [Char.ofNat 34, Char.ofNat 34])
    ∧ (∀ v, v ≠ "" → keyfile.strings "greeter-theme" "background-image" = some v →
        cfg.background_image = v) := by
  have hb := (loaded_scalars loaded).2.2.2.2.2.2.2
  rw [hb]
  refine ⟨?_, ?_, ?_⟩
  · intro h
    simp only [g_key_file_get_string, h, background_image_of]
  · intro h
    simp only [g_key_file_get_string, h, background_image_of, if_true]
  · intro v hv h
    simp [g_key_file_get_string, h, background_image_of, hv]

/-- C6, witness: `background-image = /path/x.png` is stored unchanged. -/
theorem C6_background_image_witness :
    ∃ cfg, (initialize_config sampleGdk
        (some (oneString "greeter-theme" "background-image" "/path/x.png"))).value = some cfg
      ∧ cfg.background_image = "/path/x.png" :=
  ⟨_, rfl, (C6_background_image sampleGdk
    (oneString "greeter-theme" "background-image" "/path/x.png") _ rfl).2.2
      "/path/x.png" (by decide) rfl⟩

theorem strip_color_quotes_of_hash (s : String) (hash : Char.ofNat 35 ∈ s.toList) :
    strip_color_quotes s
      = String.mk (s.toList.filter (fun c => c != Char.ofNat 34 && c != Char.ofNat 39)) := by
  have hh : has_hash s = true := by
    simpa [has_hash] using hash
  simp only [strip_color_quotes, hh, if_true, remove_char]
  congr 1
  show List.filter _ (List.filter _ s.toList) = _
  rw [List.filter_filter]
  apply List.filter_congr
  intro c _
  exact Bool.and_comm _ _

/-- C7: when the resolved string of a colour key (file value or default)
contains `#`, the string handed to the colour parser is that string with every
double quote and every single quote removed and the other characters kept in
order; so the same string wrapped in a pair of double quotes, or of single
quotes, in another key file yields the same parsed colour. -/
theorem C7_hex_colours_lose_quotes {RGBA : Type} (gdk : Gdk RGBA) (keyfile : GKeyFile)
    (key_name fallback : String)
    (hash : Char.ofNat 35 ∈ (read_color_string keyfile key_name fallback).toList) :
    strip_color_quotes (read_color_string keyfile key_name fallback)
        = String.mk ((read_color_string keyfile key_name fallback).toList.filter
            (fun c => c != Char.ofNat 34 && c != Char.ofNat 39))
    ∧ (parse_greeter_color_key gdk keyfile key_name fallback).value
        = some (gdk.gdk_rgba_parse
            (String.mk ((read_color_string keyfile key_name fallback).toList.filter
              (fun c => c != Char.ofNat 34 && c != Char.ofNat 39))))
    ∧ ∀ (quoted : GKeyFile) (q : Char), q = Char.ofNat 34 ∨ q = Char.ofNat 39 →
        quoted.strings "greeter-theme" key_name
          = some (String.mk
              (q :: (read_color_string keyfile key_name fallback).toList ++ [q])) →
        (parse_greeter_color_key gdk quoted key_name fallback).value
          = (parse_greeter_color_key gdk keyfile key_name fallback).value := by
  have h₁ := strip_color_quotes_of_hash _ hash
  refine ⟨h₁, ?_, ?_⟩
  · rw [parse_greeter_color_key_value, color_of, h₁]
  · intro quoted q hq hv
    have hread : read_color_string quoted key_name fallback
        = String.mk (q :: (read_color_string keyfile key_name fallback).toList ++ [q]) := by
      simp [read_color_string, g_key_file_get_string, hv]
    have hash' : Char.ofNat 35 ∈ (read_color_string quoted key_name fallback).toList := by
      rw [hread]
      exact List.mem_cons_of_mem _ (List.mem_append_left _ hash)
    rw [parse_greeter_color_key_value, parse_greeter_color_key_value, color_of, color_of,
      strip_color_quotes_of_hash _ hash', h₁, hread]
    rcases hq with rfl | rfl <;> simp [List.filter_cons, List.filter_append]

/-- C7, witness: `text-color = "#112233"` written with its double quotes is
handed to the parser as `#112233`, and parses as the unquoted value does. -/
theorem C7_hex_colours_lose_quotes_witness :
    strip_color_quotes "\"#112233\"" = "#112233"
    ∧ (parse_greeter_color_key sampleGdk
          (oneString "greeter-theme" "text-color" "\"#112233\"") "text-color" "#080800").value
        = (parse_greeter_color_key sampleGdk
          (oneString "greeter-theme" "text-color" "#112233") "text-color" "#080800").value :=
  ⟨((C7_hex_colours_lose_quotes sampleGdk
      (oneString "greeter-theme" "text-color" "\"#112233\"") "text-color" "#080800"
      (by decide)).1).trans (by decide),
    (C7_hex_colours_lose_quotes sampleGdk
      (oneString "greeter-theme" "text-color" "#112233") "text-color" "#080800"
      (by decide)).2.2 (oneString "greeter-theme" "text-color" "\"#112233\"")
      (Char.ofNat 34) (Or.inl rfl) (by decide)⟩

theorem string_or_cases (value : Option String) (fallback field : String)
    (h : field = string_or value fallback) :
    (∀ v, value = some v → field = v) ∧ (value = none → field = fallback) := by
  subst h
  constructor
  · rintro v rfl; rfl
  · rintro rfl; rfl

theorem boolean_or_true_cases (keyfile : GKeyFile) (group key : String) (field : Bool)
    (h : field = boolean_or_true (g_key_file_get_boolean keyfile group key)) :
    (∀ b, keyfile.booleans group key = some b → field = b)
      ∧ (keyfile.booleans group key = none → field = true) := by
  subst h
  constructor
  · intro b hb; simp [g_key_file_get_boolean, hb, boolean_or_true]
  · intro hb; simp [g_key_file_get_boolean, hb, boolean_or_true]

/-- C8: on every load that returns a `Config`, each plain scalar field is the
value the key file returns for its key when the read succeeds, and its listed
default when the read sets an error: `login_user` (`[greeter] user`,
`CHANGE_ME`), `password_label_text` (`Password:`), `show_password_label`
(`true`), `show_input_cursor` (`true`), `font` (`Sans`), `font_size` (`1em`),
`border_width` (`2px`). -/
theorem C8_scalar_fields {RGBA : Type} (gdk : Gdk RGBA) (keyfile : GKeyFile)
    (cfg : Config RGBA) (loaded : (initialize_config gdk (some keyfile)).value = some cfg) :
    ((∀ v, keyfile.strings "greeter" "user" = some v → cfg.login_user = v)
      ∧ (keyfile.strings "greeter" "user" = none → cfg.login_user = "CHANGE_ME"))
    ∧ ((∀ v, keyfile.strings "greeter" "password-label-text" = some v →
          cfg.password_label_text = v)
      ∧ (keyfile.strings "greeter" "password-label-text" = none →
          cfg.password_label_text = "Password:"))
    ∧ ((∀ b, keyfile.booleans "greeter" "show-password-label" = some b →
          cfg.show_password_label = b)
      ∧ (keyfile.booleans "greeter" "show-password-label" = none →
          cfg.show_password_label = true))
    ∧ ((∀ b, keyfile.booleans "greeter" "show-input-cursor" = some b →
          cfg.show_input_cursor = b)
      ∧ (keyfile.booleans "greeter" "show-input-cursor" = none →
          cfg.show_input_cursor = true))
    ∧ ((∀ v, keyfile.strings "greeter-theme" "font" = some v → cfg.font = v)
      ∧ (keyfile.strings "greeter-theme" "font" = none → cfg.font = "Sans"))
    ∧ ((∀ v, keyfile.strings "greeter-theme" "font-size" = some v → cfg.font_size = v)
      ∧ (keyfile.strings "greeter-theme" "font-size" = none → cfg.font_size = "1em"))
    ∧ ((∀ v, keyfile.strings "greeter-theme" "border-width" = some v → cfg.border_width = v)
      ∧ (keyfile.strings "greeter-theme" "border-width" = none →
          cfg.border_width = "2px")) := by
  obtain ⟨h₁, h₂, h₃, h₄, h₅, h₆, h₇, -⟩ := loaded_scalars loaded
  exact ⟨string_or_cases _ _ _ h₁, string_or_cases _ _ _ h₂,
    boolean_or_true_cases _ _ _ _ h₃, boolean_or_true_cases _ _ _ _ h₄,
    string_or_cases _ _ _ h₅, string_or_cases _ _ _ h₆, string_or_cases _ _ _ h₇⟩

/-- C8, witness: `font = Mono` is stored as read, and the absent `user` key
gives `CHANGE_ME`. -/
theorem C8_scalar_fields_witness :
    ∃ cfg, (initialize_config sampleGdk
        (some (oneString "greeter-theme" "font" "Mono"))).value = some cfg
      ∧ cfg.font = "Mono" ∧ cfg.login_user = "CHANGE_ME" :=
  ⟨_, rfl,
    (C8_scalar_fields sampleGdk (oneString "greeter-theme" "font" "Mono") _ rfl).2.2.2.2.1.1
      "Mono" rfl,
    (C8_scalar_fields sampleGdk (oneString "greeter-theme" "font" "Mono") _ rfl).1.2 rfl⟩

/-- C9: with `suspend-key = é` (U+00E9, UTF-8 bytes C3 A9) the code hands
`(guint) key[0]` to the key-code resolver, which is the first byte and not the
code point 233 of the first character: 4294967235 (0xFFFFFFC3) where `char` is
signed, 195 (0xC3) where it is unsigned. With a resolver that tells these
apart the field differs from the resolver applied to 233. -/
theorem C9_non_ascii_hotkey_uses_first_byte :
    (Char.ofNat 233).toNat = 233
    ∧ "é".toList = [Char.ofNat 233]
    ∧ (initialize_config sampleGdk
          (some (oneString "greeter-hotkeys" "suspend-key" "é"))).value.map
        (fun c => c.suspend_key) = some (sampleGdk.gdk_unicode_to_keyval 4294967235)
    ∧ sampleGdk.gdk_unicode_to_keyval 4294967235 ≠ sampleGdk.gdk_unicode_to_keyval 233
    ∧ (initialize_config { sampleGdk with char_is_signed := false }
          (some (oneString "greeter-hotkeys" "suspend-key" "é"))).value.map
        (fun c => c.suspend_key) = some (sampleGdk.gdk_unicode_to_keyval 195)
    ∧ sampleGdk.gdk_unicode_to_keyval 195 ≠ sampleGdk.gdk_unicode_to_keyval 233
    ∧ ∀ signed : Bool, hotkey_argument signed "é" ≠ 233 := by
  refine ⟨by decide, by decide, by rfl, by decide, by rfl, by decide, ?_⟩
  intro signed
  cases signed <;> decide

/-- The model of the first UTF-8 byte agrees with the encoder of the standard
library on a character of each encoded length. -/
theorem utf8_first_byte_samples :
    (String.utf8EncodeChar (Char.ofNat 117)).head?.map UInt8.toNat
        = some (utf8_first_byte 117)
    ∧ (String.utf8EncodeChar (Char.ofNat 233)).head?.map UInt8.toNat
        = some (utf8_first_byte 233)
    ∧ (String.utf8EncodeChar (Char.ofNat 8364)).head?.map UInt8.toNat
        = some (utf8_first_byte 8364)
    ∧ (String.utf8EncodeChar (Char.ofNat 128512)).head?.map UInt8.toNat
        = some (utf8_first_byte 128512) := by
  decide

theorem hotkey_argument_ascii (signed : Bool) (c : Char) (rest : List Char)
    (ascii : c.toNat < 128) : hotkey_argument signed (String.mk (c :: rest)) = c.toNat := by
  have h₁ : first_byte (String.mk (c :: rest)) = c.toNat := by
    simp [first_byte, utf8_first_byte, ascii]
  have h₂ : ¬ 128 ≤ c.toNat := by omega
  simp only [hotkey_argument, h₁, char_value, h₂, decide_False, Bool.and_false, to_guint]
  simp
  omega

theorem parse_greeter_hotkey_keyval_absent {RGBA : Type} (gdk : Gdk RGBA) (keyfile : GKeyFile)
    (key_name : String) (c : Char) (ascii : c.toNat < 128)
    (absent : keyfile.strings "greeter-hotkeys" key_name = none) :
    (parse_greeter_hotkey_keyval gdk keyfile key_name (String.mk [c])).value
        = some (gdk.gdk_unicode_to_keyval c.toNat)
      ∧ ¬ (parse_greeter_hotkey_keyval gdk keyfile key_name (String.mk [c])).fatal := by
  have hread : read_hotkey_string keyfile key_name (String.mk [c]) = String.mk [c] := by
    simp [read_hotkey_string, g_key_file_get_string, absent]
  have hne : String.mk [c] ≠ "" := by
    intro h
    have := congrArg String.length h
    simp at this
  have hv : (parse_greeter_hotkey_keyval gdk keyfile key_name (String.mk [c])).value
      = some (gdk.gdk_unicode_to_keyval c.toNat) := by
    rw [parse_greeter_hotkey_keyval_value, hread, if_neg hne, hotkey_argument_ascii _ _ _ ascii]
  refine ⟨hv, fun hf => ?_⟩
  have := (parse_greeter_hotkey_keyval_sound gdk keyfile key_name (String.mk [c])).mpr hf
  rw [hv] at this
  exact absurd this (by simp)

theorem initialize_config_empty_hotkey {RGBA : Type} (gdk : Gdk RGBA) (keyfile : GKeyFile)
    (key_name fallback : String)
    (listed : (key_name = "suspend-key" ∧ fallback = "u")
      ∨ (key_name = "hibernate-key" ∧ fallback = "h")
      ∨ (key_name = "restart-key" ∧ fallback = "r")
      ∨ (key_name = "shutdown-key" ∧ fallback = "s"))
    (empty : keyfile.strings "greeter-hotkeys" key_name = some "") :
    (initialize_config gdk (some keyfile)).value = none := by
  have hread : read_hotkey_string keyfile key_name fallback = "" := by
    simp [read_hotkey_string, g_key_file_get_string, empty]
  cases hc : (initialize_config gdk (some keyfile)).value with
  | none => rfl
  | some cfg =>
    obtain ⟨⟨h₁, -⟩, ⟨h₂, -⟩, ⟨h₃, -⟩, ⟨h₄, -⟩⟩ := loaded_hotkeys hc
    rcases listed with ⟨rfl, rfl⟩ | ⟨rfl, rfl⟩ | ⟨rfl, rfl⟩ | ⟨rfl, rfl⟩
    · exact absurd hread h₁
    · exact absurd hread h₂
    · exact absurd hread h₃
    · exact absurd hread h₄

/-- C10: a hotkey key absent from `[greeter-hotkeys]` makes its parse return
the key code of its own default character (`u`, `h`, `r`, `s`) without a fatal
error, and a returned `Config` holds that key code in the field; the same key
present with the empty string as its value makes the load return nothing, and
the parse of that key logs the fatal error. -/
theorem C10_hotkey_defaults {RGBA : Type} (gdk : Gdk RGBA) (keyfile : GKeyFile) :
    (keyfile.strings "greeter-hotkeys" "suspend-key" = none →
      ((parse_greeter_hotkey_keyval gdk keyfile "suspend-key" "u").value
          = some (gdk.gdk_unicode_to_keyval (Char.toNat 'u'))
        ∧ ¬ (parse_greeter_hotkey_keyval gdk keyfile "suspend-key" "u").fatal
        ∧ ∀ cfg, (initialize_config gdk (some keyfile)).value = some cfg →
            cfg.suspend_key = gdk.gdk_unicode_to_keyval (Char.toNat 'u')))
    ∧ (keyfile.strings "greeter-hotkeys" "hibernate-key" = none →
      ((parse_greeter_hotkey_keyval gdk keyfile "hibernate-key" "h").value
          = some (gdk.gdk_unicode_to_keyval (Char.toNat 'h'))
        ∧ ¬ (parse_greeter_hotkey_keyval gdk keyfile "hibernate-key" "h").fatal
        ∧ ∀ cfg, (initialize_config gdk (some keyfile)).value = some cfg →
            cfg.hibernate_key = gdk.gdk_unicode_to_keyval (Char.toNat 'h')))
    ∧ (keyfile.strings "greeter-hotkeys" "restart-key" = none →
      ((parse_greeter_hotkey_keyval gdk keyfile "restart-key" "r").value
          = some (gdk.gdk_unicode_to_keyval (Char.toNat 'r'))
        ∧ ¬ (parse_greeter_hotkey_keyval gdk keyfile "restart-key" "r").fatal
        ∧ ∀ cfg, (initialize_config gdk (some keyfile)).value = some cfg →
            cfg.restart_key = gdk.gdk_unicode_to_keyval (Char.toNat 'r')))
    ∧ (keyfile.strings "greeter-hotkeys" "shutdown-key" = none →
      ((parse_greeter_hotkey_keyval gdk keyfile "shutdown-key" "s").value
          = some (gdk.gdk_unicode_to_keyval (Char.toNat 's'))
        ∧ ¬ (parse_greeter_hotkey_keyval gdk keyfile "shutdown-key" "s").fatal
        ∧ ∀ cfg, (initialize_config gdk (some keyfile)).value = some cfg →
            cfg.shutdown_key = gdk.gdk_unicode_to_keyval (Char.toNat 's')))
    ∧ (∀ key_name fallback, (key_name = "suspend-key" ∧ fallback = "u")
          ∨ (key_name = "hibernate-key" ∧ fallback = "h")
          ∨ (key_name = "restart-key" ∧ fallback = "r")
          ∨ (key_name = "shutdown-key" ∧ fallback = "s") →
        keyfile.strings "greeter-hotkeys" key_name = some "" →
        (initialize_config gdk (some keyfile)).value = none
          ∧ (parse_greeter_hotkey_keyval gdk keyfile key_name fallback).value = none
          ∧ (parse_greeter_hotkey_keyval gdk keyfile key_name fallback).fatal) := by
  have field : ∀ (key_name : String) (c : Char), c.toNat < 128 →
      keyfile.strings "greeter-hotkeys" key_name = none →
      gdk.gdk_unicode_to_keyval (hotkey_argument gdk.char_is_signed
        (read_hotkey_string keyfile key_name (String.mk [c])))
        = gdk.gdk_unicode_to_keyval c.toNat := by
    intro key_name c ascii absent
    have hread : read_hotkey_string keyfile key_name (String.mk [c]) = String.mk [c] := by
      simp [read_hotkey_string, g_key_file_get_string, absent]
    rw [hread, hotkey_argument_ascii _ _ _ ascii]
  refine ⟨?_, ?_, ?_, ?_, ?_⟩
  · intro absent
    obtain ⟨hv, hf⟩ := parse_greeter_hotkey_keyval_absent gdk keyfile "suspend-key" 'u'
      (by decide) absent
    refine ⟨hv, hf, fun cfg loaded => ?_⟩
    rw [(loaded_hotkeys loaded).1.2]
    exact field "suspend-key" 'u' (by decide) absent
  · intro absent
    obtain ⟨hv, hf⟩ := parse_greeter_hotkey_keyval_absent gdk keyfile "hibernate-key" 'h'
      (by decide) absent
    refine ⟨hv, hf, fun cfg loaded => ?_⟩
    rw [(loaded_hotkeys loaded).2.1.2]
    exact field "hibernate-key" 'h' (by decide) absent
  · intro absent
    obtain ⟨hv, hf⟩ := parse_greeter_hotkey_keyval_absent gdk keyfile "restart-key" 'r'
      (by decide) absent
    refine ⟨hv, hf, fun cfg loaded => ?_⟩
    rw [(loaded_hotkeys loaded).2.2.1.2]
    exact field "restart-key" 'r' (by decide) absent
  · intro absent
    obtain ⟨hv, hf⟩ := parse_greeter_hotkey_keyval_absent gdk keyfile "shutdown-key" 's'
      (by decide) absent
    refine ⟨hv, hf, fun cfg loaded => ?_⟩
    rw [(loaded_hotkeys loaded).2.2.2.2]
    exact field "shutdown-key" 's' (by decide) absent
  · intro key_name fallback listed empty
    have hread : read_hotkey_string keyfile key_name fallback = "" := by
      simp [read_hotkey_string, g_key_file_get_string, empty]
    have hv : (parse_greeter_hotkey_keyval gdk keyfile key_name fallback).value = none := by
      rw [parse_greeter_hotkey_keyval_value, if_pos hread]
    exact ⟨initialize_config_empty_hotkey gdk keyfile key_name fallback listed empty, hv,
      (parse_greeter_hotkey_keyval_sound gdk keyfile key_name fallback).mp hv⟩

/-- C10, witness: the empty key file loads with `suspend_key` from `u` (117),
and `suspend-key` set to the empty string aborts the load. -/
theorem C10_hotkey_defaults_witness :
    (∃ cfg, (initialize_config sampleGdk (some emptyKeyFile)).value = some cfg
      ∧ cfg.suspend_key = 117)
    ∧ (initialize_config sampleGdk
        (some (oneString "greeter-hotkeys" "suspend-key" ""))).value = none :=
  ⟨⟨_, rfl, ((C10_hotkey_defaults sampleGdk emptyKeyFile).1 rfl).2.2 _ rfl⟩,
    ((C10_hotkey_defaults sampleGdk
      (oneString "greeter-hotkeys" "suspend-key" "")).2.2.2.2
        "suspend-key" "u" (Or.inl ⟨rfl, rfl⟩) rfl).1⟩

/-! ## The log of a run -/

theorem Outcome.log_bind {α β : Type} (x : Outcome α) (f : α → Outcome β) :
    (x >>= f).log = x.log ++ (match x.value with
      | none => []
      | some a => (f a).log) := by
  show (Outcome.andThen x f).log = _
  unfold Outcome.andThen
  cases h : x.value <;> simp

theorem Outcome.log_pure {α : Type} (a : α) : (pure a : Outcome α).log = [] := rfl

theorem parse_greeter_color_key_log {RGBA : Type} (gdk : Gdk RGBA) (keyfile : GKeyFile)
    (key_name fallback : String) :
    (parse_greeter_color_key gdk keyfile key_name fallback).log
      = if (gdk.gdk_rgba_parse
            (strip_color_quotes (read_color_string keyfile key_name fallback))).isNone
        then [color_warning_line key_name
            (strip_color_quotes (read_color_string keyfile key_name fallback))]
        else [] := by
  unfold parse_greeter_color_key
  cases h : gdk.gdk_rgba_parse (strip_color_quotes (read_color_string keyfile key_name fallback))
    <;> simp [h, g_critical, Outcome.log_pure, Outcome.value_pure, Outcome.log_bind,
      color_warning_line]

theorem parse_greeter_hotkey_keyval_log {RGBA : Type} (gdk : Gdk RGBA) (keyfile : GKeyFile)
    (key_name fallback : String) :
    (parse_greeter_hotkey_keyval gdk keyfile key_name fallback).log
      = if read_hotkey_string keyfile key_name fallback = "" then
          [⟨LogLevel.error, "Configuration contains empty key for '" ++ key_name ++ "'\n"⟩]
        else [] := by
  unfold parse_greeter_hotkey_keyval
  by_cases h : read_hotkey_string keyfile key_name fallback = ""
    <;> simp [h, g_error, Outcome.log_pure, Outcome.value_pure, Outcome.log_bind]

theorem mod_bit_of_log (mod_key : String) :
    (mod_bit_of mod_key).log
      = if mod_key = "control" ∨ mod_key = "alt" ∨ mod_key = "meta" then []
        else [⟨LogLevel.error,
          "Invalid mod-key configuration value: '" ++ mod_key ++ "'\n"⟩] := by
  unfold mod_bit_of
  by_cases h₁ : mod_key = "control"
  · simp [h₁, Outcome.log_pure]
  · by_cases h₂ : mod_key = "alt"
    · simp [h₂, Outcome.log_pure]
    · by_cases h₃ : mod_key = "meta"
      · simp [h₃, Outcome.log_pure]
      · simp [h₁, h₂, h₃, g_error]

theorem Outcome.quiet_pure {α : Type} (a : α) : (pure a : Outcome α).quiet := by
  intro d hd
  simp [Outcome.log_pure] at hd

theorem Outcome.quiet_bind {α β : Type} (x : Outcome α) (f : α → Outcome β)
    (hx : x.quiet) (hf : ∀ a, (f a).quiet) : (x >>= f).quiet := by
  intro d hd
  rw [Outcome.log_bind, List.mem_append] at hd
  rcases hd with hd | hd
  · exact hx d hd
  · cases h : x.value with
    | none => simp [h] at hd
    | some a =>
      simp only [h] at hd
      exact hf a d hd

theorem parse_greeter_color_key_quiet {RGBA : Type} (gdk : Gdk RGBA) (keyfile : GKeyFile)
    (key_name fallback : String) :
    (parse_greeter_color_key gdk keyfile key_name fallback).quiet := by
  intro d hd
  rw [parse_greeter_color_key_log] at hd
  split_ifs at hd
  · simp only [List.mem_singleton] at hd
    subst hd
    simp [color_warning_line]
  · simp at hd

theorem parse_greeter_hotkey_keyval_quiet {RGBA : Type} (gdk : Gdk RGBA) (keyfile : GKeyFile)
    (key_name fallback : String) :
    (parse_greeter_hotkey_keyval gdk keyfile key_name fallback).quiet := by
  intro d hd
  rw [parse_greeter_hotkey_keyval_log] at hd
  split_ifs at hd
  · simp only [List.mem_singleton] at hd
    subst hd
    simp
  · simp at hd

theorem mod_bit_of_quiet (mod_key : String) : (mod_bit_of mod_key).quiet := by
  intro d hd
  rw [mod_bit_of_log] at hd
  split_ifs at hd
  · simp at hd
  · simp only [List.mem_singleton] at hd
    subst hd
    simp

/-- The log of a load of a loaded key file, seen from the test on the login
user: the unchanged-user line first when the resolved user is the placeholder,
and after it only lines that are not at the message level. -/
theorem initialize_config_log_user {RGBA : Type} (gdk : Gdk RGBA) (keyfile : GKeyFile) :
    ∃ rest : List Diagnostic, (∀ d, d ∈ rest → d.level ≠ LogLevel.message)
      ∧ (initialize_config gdk (some keyfile)).log
        = (if string_or (g_key_file_get_string keyfile "greeter" "user") "CHANGE_ME"
              = "CHANGE_ME" then [unchanged_user_line] else []) ++ rest := by
  unfold initialize_config
  rw [Outcome.log_bind]
  simp only [Outcome.log_pure, Outcome.value_pure, List.nil_append]
  split_ifs with hu
  · rw [Outcome.log_bind]
    refine ⟨_, ?_, rfl⟩
    show Outcome.quiet _
    repeat first
      | exact Outcome.quiet_pure _
      | exact mod_bit_of_quiet _
      | exact parse_greeter_hotkey_keyval_quiet _ _ _ _
      | exact parse_greeter_color_key_quiet _ _ _ _
      | refine Outcome.quiet_bind _ _ ?_ (fun _ => ?_)
  · refine ⟨_, ?_, (List.nil_append _).symm⟩
    show Outcome.quiet _
    repeat first
      | exact Outcome.quiet_pure _
      | exact mod_bit_of_quiet _
      | exact parse_greeter_hotkey_keyval_quiet _ _ _ _
      | exact parse_greeter_color_key_quiet _ _ _ _
      | refine Outcome.quiet_bind _ _ ?_ (fun _ => ?_)

theorem mod_bit_of_log_of_value (mod_key : String) (e : ℕ)
    (h : (mod_bit_of mod_key).value = some e) : (mod_bit_of mod_key).log = [] := by
  rw [mod_bit_of_log]
  rw [mod_bit_of_value] at h
  by_cases h₁ : mod_key = "control"
  · simp [h₁]
  · by_cases h₂ : mod_key = "alt"
    · simp [h₂]
    · by_cases h₃ : mod_key = "meta"
      · simp [h₃]
      · simp [h₁, h₂, h₃] at h

/-- The log of a load that returns a record: the unchanged-user line when the
resolved user is the placeholder, then what the seven colour keys logged, in
the order in which they are parsed. -/
theorem initialize_config_log_loaded {RGBA : Type} (gdk : Gdk RGBA) (keyfile : GKeyFile)
    (cfg : Config RGBA) (loaded : (initialize_config gdk (some keyfile)).value = some cfg) :
    (initialize_config gdk (some keyfile)).log
      = (if string_or (g_key_file_get_string keyfile "greeter" "user") "CHANGE_ME"
            = "CHANGE_ME" then [unchanged_user_line] else [])
        ++ (parse_greeter_color_key gdk keyfile "text-color" "#080800").log
        ++ (parse_greeter_color_key gdk keyfile "error-color" "#F8F8F0").log
        ++ (parse_greeter_color_key gdk keyfile "background-color" "#1B1D1E").log
        ++ (parse_greeter_color_key gdk keyfile "window-color" "#F92672").log
        ++ (parse_greeter_color_key gdk keyfile "border-color" "#080800").log
        ++ (parse_greeter_color_key gdk keyfile "password-color" "#F8F8F0").log
        ++ (parse_greeter_color_key gdk keyfile "password-background-color" "#1B1D1E").log := by
  obtain ⟨h₁, h₂, h₃, h₄, e, he, -⟩ := (initialize_config_value_eq gdk keyfile cfg).mp loaded
  have hm := mod_bit_of_log_of_value _ e he
  have k₁ := parse_greeter_hotkey_keyval_log gdk keyfile "suspend-key" "u"
  have k₂ := parse_greeter_hotkey_keyval_log gdk keyfile "hibernate-key" "h"
  have k₃ := parse_greeter_hotkey_keyval_log gdk keyfile "restart-key" "r"
  have k₄ := parse_greeter_hotkey_keyval_log gdk keyfile "shutdown-key" "s"
  rw [if_neg h₁] at k₁
  rw [if_neg h₂] at k₂
  rw [if_neg h₃] at k₃
  rw [if_neg h₄] at k₄
  unfold initialize_config
  rw [Outcome.log_bind]
  simp only [Outcome.log_pure, Outcome.value_pure, List.nil_append]
  split_ifs with hu
  · simp only [Outcome.log_bind, Outcome.value_bind, Outcome.log_pure, Outcome.value_pure,
      k₁, k₂, k₃, k₄, hm, he, parse_greeter_hotkey_keyval_value, parse_greeter_color_key_value,
      if_neg h₁, if_neg h₂, if_neg h₃, if_neg h₄, g_message, unchanged_user_line,
      List.nil_append, List.append_nil, List.append_assoc, Option.some_bind]
  · simp only [Outcome.log_bind, Outcome.value_bind, Outcome.log_pure, Outcome.value_pure,
      k₁, k₂, k₃, k₄, hm, he, parse_greeter_hotkey_keyval_value, parse_greeter_color_key_value,
      if_neg h₁, if_neg h₂, if_neg h₃, if_neg h₄,
      List.nil_append, List.append_nil, List.append_assoc, Option.some_bind]

/-! ## The claims on diagnostics, independence and the helpers -/

/-- C11: in a load of a loaded key file the unchanged-user line is logged if
and only if the resolved login user is exactly `CHANGE_ME`: it is logged when
the `user` key is absent and when it is set to `CHANGE_ME`, and it is not
logged for any other value (the empty string and `change_me` included). It is
the only line the load writes at the message level, and on a returned `Config`
it is there exactly when `login_user` is `CHANGE_ME`. -/
theorem C11_unchanged_user_line {RGBA : Type} (gdk : Gdk RGBA) (keyfile : GKeyFile) :
    (unchanged_user_line ∈ (initialize_config gdk (some keyfile)).log ↔
        string_or (g_key_file_get_string keyfile "greeter" "user") "CHANGE_ME" = "CHANGE_ME")
    ∧ (keyfile.strings "greeter" "user" = none →
        unchanged_user_line ∈ (initialize_config gdk (some keyfile)).log)
    ∧ (keyfile.strings "greeter" "user" = some "CHANGE_ME" →
        unchanged_user_line ∈ (initialize_config gdk (some keyfile)).log)
    ∧ (∀ v, keyfile.strings "greeter" "user" = some v → v ≠ "CHANGE_ME" →
        ∀ d, d ∈ (initialize_config gdk (some keyfile)).log → d.level ≠ LogLevel.message)
    ∧ "" ≠ "CHANGE_ME" ∧ "change_me" ≠ "CHANGE_ME"
    ∧ (∀ d, d ∈ (initialize_config gdk (some keyfile)).log → d.level = LogLevel.message →
        d = unchanged_user_line)
    ∧ (∀ cfg, (initialize_config gdk (some keyfile)).value = some cfg →
        (unchanged_user_line ∈ (initialize_config gdk (some keyfile)).log ↔
          cfg.login_user = "CHANGE_ME")) := by
  obtain ⟨rest, hrest, hlog⟩ := initialize_config_log_user gdk keyfile
  have hnot : unchanged_user_line ∉ rest := fun h => hrest _ h rfl
  have main : unchanged_user_line ∈ (initialize_config gdk (some keyfile)).log ↔
      string_or (g_key_file_get_string keyfile "greeter" "user") "CHANGE_ME" = "CHANGE_ME" := by
    rw [hlog]
    split_ifs with hu
    · simp [hu]
    · simp [hu, hnot]
  refine ⟨main, ?_, ?_, ?_, by decide, by decide, ?_, ?_⟩
  · intro h
    exact main.mpr (by simp [g_key_file_get_string, h, string_or])
  · intro h
    exact main.mpr (by simp [g_key_file_get_string, h, string_or])
  · intro v hv hne d hd
    have hu : ¬ string_or (g_key_file_get_string keyfile "greeter" "user") "CHANGE_ME"
        = "CHANGE_ME" := by
      simpa [g_key_file_get_string, hv, string_or] using hne
    rw [hlog, if_neg hu, List.nil_append] at hd
    exact hrest d hd
  · intro d hd hlevel
    rw [hlog, List.mem_append] at hd
    rcases hd with hd | hd
    · split_ifs at hd
      · simpa using hd
      · simp at hd
    · exact absurd hlevel (hrest d hd)
  · intro cfg loaded
    rw [main, (loaded_scalars loaded).1]

/-- C11, witness: the empty key file logs the unchanged-user line, and
`user = change_me` logs no line at the message level. -/
theorem C11_unchanged_user_line_witness :
    unchanged_user_line ∈ (initialize_config sampleGdk (some emptyKeyFile)).log
    ∧ ∀ d, d ∈ (initialize_config sampleGdk
        (some (oneString "greeter" "user" "change_me"))).log → d.level ≠ LogLevel.message :=
  ⟨(C11_unchanged_user_line sampleGdk emptyKeyFile).2.1 rfl,
    (C11_unchanged_user_line sampleGdk (oneString "greeter" "user" "change_me")).2.2.2.1
      "change_me" rfl (by decide)⟩

theorem read_hotkey_string_congr (first second : GKeyFile) (key_name fallback : String)
    (h : first.strings "greeter-hotkeys" key_name = second.strings "greeter-hotkeys" key_name) :
    read_hotkey_string first key_name fallback = read_hotkey_string second key_name fallback := by
  simp [read_hotkey_string, g_key_file_get_string, h]

theorem color_of_congr {RGBA : Type} (gdk : Gdk RGBA) (first second : GKeyFile)
    (key_name fallback : String)
    (h : first.strings "greeter-theme" key_name = second.strings "greeter-theme" key_name) :
    color_of gdk first key_name fallback = color_of gdk second key_name fallback := by
  simp [color_of, read_color_string, g_key_file_get_string, h]

/-- C12: two key files that agree on every key except possibly one (in all
three typed reads), and on which the load returns a `Config` under the same
GDK, give records that agree on every field except possibly the one fed by
that key: each of the 21 fields is equal in both as soon as the differing key
is not the field's own key. -/
theorem C12_fields_are_independent {RGBA : Type} (gdk : Gdk RGBA) (first second : GKeyFile)
    (group key : String) (cfg₁ cfg₂ : Config RGBA)
    (agree : ∀ g k, (g, k) ≠ (group, key) →
      first.strings g k = second.strings g k
        ∧ first.booleans g k = second.booleans g k
        ∧ first.integers g k = second.integers g k)
    (loaded₁ : (initialize_config gdk (some first)).value = some cfg₁)
    (loaded₂ : (initialize_config gdk (some second)).value = some cfg₂) :
    ((group, key) ≠ ("greeter", "user") → cfg₁.login_user = cfg₂.login_user)
    ∧ ((group, key) ≠ ("greeter", "show-password-label") →
        cfg₁.show_password_label = cfg₂.show_password_label)
    ∧ ((group, key) ≠ ("greeter", "password-label-text") →
        cfg₁.password_label_text = cfg₂.password_label_text)
    ∧ ((group, key) ≠ ("greeter", "show-input-cursor") →
        cfg₁.show_input_cursor = cfg₂.show_input_cursor)
    ∧ ((group, key) ≠ ("greeter-hotkeys", "suspend-key") →
        cfg₁.suspend_key = cfg₂.suspend_key)
    ∧ ((group, key) ≠ ("greeter-hotkeys", "hibernate-key") →
        cfg₁.hibernate_key = cfg₂.hibernate_key)
    ∧ ((group, key) ≠ ("greeter-hotkeys", "restart-key") →
        cfg₁.restart_key = cfg₂.restart_key)
    ∧ ((group, key) ≠ ("greeter-hotkeys", "shutdown-key") →
        cfg₁.shutdown_key = cfg₂.shutdown_key)
    ∧ ((group, key) ≠ ("greeter-hotkeys", "mod-key") → cfg₁.mod_bit = cfg₂.mod_bit)
    ∧ ((group, key) ≠ ("greeter-theme", "font") → cfg₁.font = cfg₂.font)
    ∧ ((group, key) ≠ ("greeter-theme", "font-size") → cfg₁.font_size = cfg₂.font_size)
    ∧ ((group, key) ≠ ("greeter-theme", "text-color") → cfg₁.text_color = cfg₂.text_color)
    ∧ ((group, key) ≠ ("greeter-theme", "error-color") →
        cfg₁.error_color = cfg₂.error_color)
    ∧ ((group, key) ≠ ("greeter-theme", "background-image") →
        cfg₁.background_image = cfg₂.background_image)
    ∧ ((group, key) ≠ ("greeter-theme", "background-color") →
        cfg₁.background_color = cfg₂.background_color)
    ∧ ((group, key) ≠ ("greeter-theme", "window-color") →
        cfg₁.window_color = cfg₂.window_color)
    ∧ ((group, key) ≠ ("greeter-theme", "border-color") →
        cfg₁.border_color = cfg₂.border_color)
    ∧ ((group, key) ≠ ("greeter-theme", "password-color") →
        cfg₁.password_color = cfg₂.password_color)
    ∧ ((group, key) ≠ ("greeter-theme", "password-background-color") →
        cfg₁.password_background_color = cfg₂.password_background_color)
    ∧ ((group, key) ≠ ("greeter-theme", "border-width") →
        cfg₁.border_width = cfg₂.border_width)
    ∧ ((group, key) ≠ ("greeter-theme", "layout-space") →
        cfg₁.layout_spacing = cfg₂.layout_spacing) := by
  have same : ∀ g k, (group, key) ≠ (g, k) →
      first.strings g k = second.strings g k
        ∧ first.booleans g k = second.booleans g k
        ∧ first.integers g k = second.integers g k :=
    fun g k h => agree g k (fun e => h e.symm)
  obtain ⟨a₁, a₂, a₃, a₄, a₅, a₆, a₇, a₈⟩ := loaded_scalars loaded₁
  obtain ⟨b₁, b₂, b₃, b₄, b₅, b₆, b₇, b₈⟩ := loaded_scalars loaded₂
  obtain ⟨⟨-, p₁⟩, ⟨-, p₂⟩, ⟨-, p₃⟩, ⟨-, p₄⟩⟩ := loaded_hotkeys loaded₁
  obtain ⟨⟨-, q₁⟩, ⟨-, q₂⟩, ⟨-, q₃⟩, ⟨-, q₄⟩⟩ := loaded_hotkeys loaded₂
  obtain ⟨c₁, c₂, c₃, c₄, c₅, c₆, c₇⟩ := loaded_colors loaded₁
  obtain ⟨d₁, d₂, d₃, d₄, d₅, d₆, d₇⟩ := loaded_colors loaded₂
  have m₁ := loaded_mod_bit loaded₁
  have m₂ := loaded_mod_bit loaded₂
  have l₁ := loaded_layout_spacing loaded₁
  have l₂ := loaded_layout_spacing loaded₂
  refine ⟨?_, ?_, ?_, ?_, ?_, ?_, ?_, ?_, ?_, ?_, ?_, ?_, ?_, ?_, ?_, ?_, ?_, ?_, ?_, ?_, ?_⟩
  · intro h; rw [a₁, b₁]; simp only [g_key_file_get_string, (same _ _ h).1]
  · intro h; rw [a₃, b₃]; simp only [g_key_file_get_boolean, (same _ _ h).2.1]
  · intro h; rw [a₂, b₂]; simp only [g_key_file_get_string, (same _ _ h).1]
  · intro h; rw [a₄, b₄]; simp only [g_key_file_get_boolean, (same _ _ h).2.1]
  · intro h; rw [p₁, q₁, read_hotkey_string_congr first second _ _ (same _ _ h).1]
  · intro h; rw [p₂, q₂, read_hotkey_string_congr first second _ _ (same _ _ h).1]
  · intro h; rw [p₃, q₃, read_hotkey_string_congr first second _ _ (same _ _ h).1]
  · intro h; rw [p₄, q₄, read_hotkey_string_congr first second _ _ (same _ _ h).1]
  · intro h
    simp only [g_key_file_get_string, (same _ _ h).1] at m₁
    simp only [g_key_file_get_string] at m₂
    rw [m₁] at m₂
    exact Option.some.inj m₂
  · intro h; rw [a₅, b₅]; simp only [g_key_file_get_string, (same _ _ h).1]
  · intro h; rw [a₆, b₆]; simp only [g_key_file_get_string, (same _ _ h).1]
  · intro h; rw [c₁, d₁]; exact color_of_congr gdk first second _ _ (same _ _ h).1
  · intro h; rw [c₂, d₂]; exact color_of_congr gdk first second _ _ (same _ _ h).1
  · intro h; rw [a₈, b₈]; simp only [g_key_file_get_string, (same _ _ h).1]
  · intro h; rw [c₃, d₃]; exact color_of_congr gdk first second _ _ (same _ _ h).1
  · intro h; rw [c₄, d₄]; exact color_of_congr gdk first second _ _ (same _ _ h).1
  · intro h; rw [c₅, d₅]; exact color_of_congr gdk first second _ _ (same _ _ h).1
  · intro h; rw [c₆, d₆]; exact color_of_congr gdk first second _ _ (same _ _ h).1
  · intro h; rw [c₇, d₇]; exact color_of_congr gdk first second _ _ (same _ _ h).1
  · intro h; rw [a₇, b₇]; simp only [g_key_file_get_string, (same _ _ h).1]
  · intro h; rw [l₁, l₂]; simp only [g_key_file_get_integer, (same _ _ h).2.2]

/-- C12, witness: the empty key file and the key file with only `font = Mono`
differ in the `font` key alone; both load, their `text_color` and
`layout_spacing` agree, and their `font` differs. -/
theorem C12_fields_are_independent_witness :
    ∃ cfg₁ cfg₂, (initialize_config sampleGdk (some emptyKeyFile)).value = some cfg₁
      ∧ (initialize_config sampleGdk
          (some (oneString "greeter-theme" "font" "Mono"))).value = some cfg₂
      ∧ cfg₁.text_color = cfg₂.text_color
      ∧ cfg₁.layout_spacing = cfg₂.layout_spacing
      ∧ cfg₁.font ≠ cfg₂.font :=
  have agree : ∀ g k, (g, k) ≠ ("greeter-theme", "font") →
      emptyKeyFile.strings g k = (oneString "greeter-theme" "font" "Mono").strings g k
        ∧ emptyKeyFile.booleans g k = (oneString "greeter-theme" "font" "Mono").booleans g k
        ∧ emptyKeyFile.integers g k
            = (oneString "greeter-theme" "font" "Mono").integers g k := by
    intro g k h
    refine ⟨?_, rfl, rfl⟩
    have hne : ¬ (g = "greeter-theme" ∧ k = "font") := fun e => h (by rw [e.1, e.2])
    simp [emptyKeyFile, oneString, hne]
  ⟨_, _, rfl, rfl,
    (C12_fields_are_independent sampleGdk emptyKeyFile (oneString "greeter-theme" "font" "Mono")
      "greeter-theme" "font" _ _ agree rfl rfl).2.2.2.2.2.2.2.2.2.2.2.1 (by decide),
    (C12_fields_are_independent sampleGdk emptyKeyFile (oneString "greeter-theme" "font" "Mono")
      "greeter-theme" "font" _ _ agree rfl rfl).2.2.2.2.2.2.2.2.2.2.2.2.2.2.2.2.2.2.2.2
      (by decide),
    by decide⟩

theorem strip_color_quotes_of_no_hash (s : String) (plain : Char.ofNat 35 ∉ s.toList) :
    strip_color_quotes s = s := by
  have hh : has_hash s = false := by
    simpa [has_hash] using plain
  simp [strip_color_quotes, hh]

/-- C13, as stated, fails: with `text-color` written as `x#112233` inside
double quotes, the parser rejects the string and the line logged for
`text-color` carries `x#112233`, the copy without the quotes, and not the
quoted text read from the file; the same line is in the log of the load. -/
theorem C13_warning_carries_stripped_string :
    read_color_string (oneString "greeter-theme" "text-color" "\"x#112233\"")
        "text-color" "#080800" = "\"x#112233\""
    ∧ sampleGdk.gdk_rgba_parse "\"x#112233\"" = none
    ∧ sampleGdk.gdk_rgba_parse "x#112233" = none
    ∧ (parse_greeter_color_key sampleGdk
          (oneString "greeter-theme" "text-color" "\"x#112233\"") "text-color" "#080800").log
        = [color_warning_line "text-color" "x#112233"]
    ∧ color_warning_line "text-color" "\"x#112233\""
        ∉ (parse_greeter_color_key sampleGdk
          (oneString "greeter-theme" "text-color" "\"x#112233\"") "text-color" "#080800").log
    ∧ (initialize_config sampleGdk
          (some (oneString "greeter-theme" "text-color" "\"x#112233\""))).log
        = [unchanged_user_line, color_warning_line "text-color" "x#112233"] := by
  refine ⟨by rfl, by rfl, by rfl, by rfl, by decide, by rfl⟩

/-- C13, amended: for every colour key a warning line is logged if and only if
the colour parser rejects the string handed to it; the line names the key and
carries that string, which is the resolved value unchanged when it has no `#`
and the resolved value without its double and single quotes when it has one.
On a load that returns a `Config` the log is the unchanged-user line, if any,
followed by the lines of the seven colour keys in parsing order. -/
theorem C13_color_warning {RGBA : Type} (gdk : Gdk RGBA) (keyfile : GKeyFile)
    (key_name fallback : String) :
    (parse_greeter_color_key gdk keyfile key_name fallback).log
        = (if (gdk.gdk_rgba_parse
              (strip_color_quotes (read_color_string keyfile key_name fallback))).isNone
          then [color_warning_line key_name
              (strip_color_quotes (read_color_string keyfile key_name fallback))]
          else [])
    ∧ (color_warning_line key_name
            (strip_color_quotes (read_color_string keyfile key_name fallback))
          ∈ (parse_greeter_color_key gdk keyfile key_name fallback).log ↔
        gdk.gdk_rgba_parse
          (strip_color_quotes (read_color_string keyfile key_name fallback)) = none)
    ∧ ((parse_greeter_color_key gdk keyfile key_name fallback).log ≠ [] ↔
        gdk.gdk_rgba_parse
          (strip_color_quotes (read_color_string keyfile key_name fallback)) = none)
    ∧ (Char.ofNat 35 ∉ (read_color_string keyfile key_name fallback).toList →
        strip_color_quotes (read_color_string keyfile key_name fallback)
          = read_color_string keyfile key_name fallback)
    ∧ (Char.ofNat 35 ∈ (read_color_string keyfile key_name fallback).toList →
        strip_color_quotes (read_color_string keyfile key_name fallback)
          = String.mk ((read_color_string keyfile key_name fallback).toList.filter
              (fun c => c != Char.ofNat 34 && c != Char.ofNat 39)))
    ∧ (∀ cfg, (initialize_config gdk (some keyfile)).value = some cfg →
        (initialize_config gdk (some keyfile)).log
          = (if string_or (g_key_file_get_string keyfile "greeter" "user") "CHANGE_ME"
                = "CHANGE_ME" then [unchanged_user_line] else [])
            ++ (parse_greeter_color_key gdk keyfile "text-color" "#080800").log
            ++ (parse_greeter_color_key gdk keyfile "error-color" "#F8F8F0").log
            ++ (parse_greeter_color_key gdk keyfile "background-color" "#1B1D1E").log
            ++ (parse_greeter_color_key gdk keyfile "window-color" "#F92672").log
            ++ (parse_greeter_color_key gdk keyfile "border-color" "#080800").log
            ++ (parse_greeter_color_key gdk keyfile "password-color" "#F8F8F0").log
            ++ (parse_greeter_color_key gdk keyfile
                "password-background-color" "#1B1D1E").log) := by
  have hlog := parse_greeter_color_key_log gdk keyfile key_name fallback
  refine ⟨hlog, ?_, ?_, strip_color_quotes_of_no_hash _, strip_color_quotes_of_hash _,
    fun cfg loaded => initialize_config_log_loaded gdk keyfile cfg loaded⟩
  · rw [hlog]
    cases h : gdk.gdk_rgba_parse
      (strip_color_quotes (read_color_string keyfile key_name fallback)) <;> simp
  · rw [hlog]
    cases h : gdk.gdk_rgba_parse
      (strip_color_quotes (read_color_string keyfile key_name fallback)) <;> simp

/-- C13, witness: `text-color = red` is rejected by the sample parser and the
line logged carries `red`, the value as read. -/
theorem C13_color_warning_witness :
    color_warning_line "text-color" "red"
      ∈ (parse_greeter_color_key sampleGdk
          (oneString "greeter-theme" "text-color" "red") "text-color" "#080800").log :=
  (C13_color_warning sampleGdk (oneString "greeter-theme" "text-color" "red")
    "text-color" "#080800").2.1.mpr rfl

/-- C14: when the resolved string of a colour key has no `#` in it, the string
handed to the colour parser is that string unchanged, quote characters
included, and the colour stored is the parser's result on it. -/
theorem C14_plain_colours_keep_quotes {RGBA : Type} (gdk : Gdk RGBA) (keyfile : GKeyFile)
    (key_name fallback : String)
    (plain : Char.ofNat 35 ∉ (read_color_string keyfile key_name fallback).toList) :
    strip_color_quotes (read_color_string keyfile key_name fallback)
        = read_color_string keyfile key_name fallback
    ∧ (parse_greeter_color_key gdk keyfile key_name fallback).value
        = some (gdk.gdk_rgba_parse (read_color_string keyfile key_name fallback)) := by
  have h := strip_color_quotes_of_no_hash _ plain
  refine ⟨h, ?_⟩
  rw [parse_greeter_color_key_value, color_of, h]

/-- C14, witness: `text-color` written as `red` inside double quotes is handed
to the parser with its two quotes. -/
theorem C14_plain_colours_keep_quotes_witness :
    strip_color_quotes (read_color_string
        (oneString "greeter-theme" "text-color" "\"red\"") "text-color" "#080800")
      = String.mk [Char.ofNat 34, Char.ofNat 114, Char.ofNat 101, Char.ofNat 100,
          Char.ofNat 34] :=
  ((C14_plain_colours_keep_quotes sampleGdk
      (oneString "greeter-theme" "text-color" "\"red\"") "text-color" "#080800"
      (by decide)).1).trans (by decide)

theorem hotkey_argument_of_ascii_byte (signed : Bool) (s : String)
    (ascii : first_byte s < 128) : hotkey_argument signed s = first_byte s := by
  have h : ¬ 128 ≤ first_byte s := by omega
  simp only [hotkey_argument, char_value, h, decide_False, Bool.and_false, to_guint]
  simp
  omega

theorem first_byte_ascii_is_first_char (c : Char) (rest : List Char)
    (ascii : first_byte (String.mk (c :: rest)) < 128) :
    first_byte (String.mk (c :: rest)) = c.toNat := by
  have h : first_byte (String.mk (c :: rest)) = utf8_first_byte c.toNat := rfl
  rw [h] at ascii ⊢
  unfold utf8_first_byte at ascii ⊢
  split_ifs at ascii ⊢ <;> first | rfl | omega

/-- C15: a non-empty hotkey string whose first byte `b` is below 128 parses to
the key-code resolver applied to `b`, whatever follows the first byte: `b` is
the code of the first character, any other non-empty value for the key with
the same first byte parses to the same key code, and on a returned `Config`
the field of each of the four hotkey keys holds that key code. -/
theorem C15_ascii_hotkey_first_byte {RGBA : Type} (gdk : Gdk RGBA) (keyfile : GKeyFile)
    (key_name fallback : String)
    (nonempty : read_hotkey_string keyfile key_name fallback ≠ "")
    (ascii : first_byte (read_hotkey_string keyfile key_name fallback) < 128) :
    (parse_greeter_hotkey_keyval gdk keyfile key_name fallback).value
        = some (gdk.gdk_unicode_to_keyval
            (first_byte (read_hotkey_string keyfile key_name fallback)))
    ∧ (∀ c rest, read_hotkey_string keyfile key_name fallback = String.mk (c :: rest) →
        (parse_greeter_hotkey_keyval gdk keyfile key_name fallback).value
          = some (gdk.gdk_unicode_to_keyval c.toNat))
    ∧ (∀ other : GKeyFile, read_hotkey_string other key_name fallback ≠ "" →
        first_byte (read_hotkey_string other key_name fallback)
          = first_byte (read_hotkey_string keyfile key_name fallback) →
        (parse_greeter_hotkey_keyval gdk other key_name fallback).value
          = (parse_greeter_hotkey_keyval gdk keyfile key_name fallback).value)
    ∧ (∀ cfg, (initialize_config gdk (some keyfile)).value = some cfg →
        (key_name = "suspend-key" ∧ fallback = "u" →
          cfg.suspend_key = gdk.gdk_unicode_to_keyval
            (first_byte (read_hotkey_string keyfile key_name fallback)))
        ∧ (key_name = "hibernate-key" ∧ fallback = "h" →
          cfg.hibernate_key = gdk.gdk_unicode_to_keyval
            (first_byte (read_hotkey_string keyfile key_name fallback)))
        ∧ (key_name = "restart-key" ∧ fallback = "r" →
          cfg.restart_key = gdk.gdk_unicode_to_keyval
            (first_byte (read_hotkey_string keyfile key_name fallback)))
        ∧ (key_name = "shutdown-key" ∧ fallback = "s" →
          cfg.shutdown_key = gdk.gdk_unicode_to_keyval
            (first_byte (read_hotkey_string keyfile key_name fallback)))) := by
  have harg := hotkey_argument_of_ascii_byte gdk.char_is_signed _ ascii
  have hv : (parse_greeter_hotkey_keyval gdk keyfile key_name fallback).value
      = some (gdk.gdk_unicode_to_keyval
          (first_byte (read_hotkey_string keyfile key_name fallback))) := by
    rw [parse_greeter_hotkey_keyval_value, if_neg nonempty, harg]
  refine ⟨hv, ?_, ?_, ?_⟩
  · intro c rest hs
    rw [hv]
    rw [hs] at ascii ⊢
    rw [first_byte_ascii_is_first_char c rest ascii]
  · intro other hne hsame
    have ascii' : first_byte (read_hotkey_string other key_name fallback) < 128 := by
      rw [hsame]; exact ascii
    rw [hv, parse_greeter_hotkey_keyval_value, if_neg hne,
      hotkey_argument_of_ascii_byte gdk.char_is_signed _ ascii', hsame]
  · intro cfg loaded
    obtain ⟨⟨-, p₁⟩, ⟨-, p₂⟩, ⟨-, p₃⟩, ⟨-, p₄⟩⟩ := loaded_hotkeys loaded
    refine ⟨?_, ?_, ?_, ?_⟩
    · rintro ⟨rfl, rfl⟩; rw [p₁, harg]
    · rintro ⟨rfl, rfl⟩; rw [p₂, harg]
    · rintro ⟨rfl, rfl⟩; rw [p₃, harg]
    · rintro ⟨rfl, rfl⟩; rw [p₄, harg]

/-- C15, witness: `suspend-key = uvw` loads with `suspend_key` from the byte
117 of `u`, and parses as the absent key does with its default `u`. -/
theorem C15_ascii_hotkey_first_byte_witness :
    (∃ cfg, (initialize_config sampleGdk
        (some (oneString "greeter-hotkeys" "suspend-key" "uvw"))).value = some cfg
      ∧ cfg.suspend_key = 117)
    ∧ (parse_greeter_hotkey_keyval sampleGdk emptyKeyFile "suspend-key" "u").value
        = (parse_greeter_hotkey_keyval sampleGdk
            (oneString "greeter-hotkeys" "suspend-key" "uvw") "suspend-key" "u").value :=
  ⟨⟨_, rfl,
    ((C15_ascii_hotkey_first_byte sampleGdk (oneString "greeter-hotkeys" "suspend-key" "uvw")
      "suspend-key" "u" (by decide) (by decide)).2.2.2 _ rfl).1 ⟨rfl, rfl⟩⟩,
    (C15_ascii_hotkey_first_byte sampleGdk (oneString "greeter-hotkeys" "suspend-key" "uvw")
      "suspend-key" "u" (by decide) (by decide)).2.2.1 emptyKeyFile (by decide) (by decide)⟩

end MiniGreeter
